import Mathlib

/-!
# CosmosClerk: session store and paginated chain menu

A shallow embedding of `src/main.js` (a Telegraf bot that browses a chain
registry).  JavaScript values are modelled as follows.

* Strings are Lean strings; prefix tests and replacements work on the list of
  characters (`String.data`).  All patterns used by the program are ASCII.
* `userLastAction` (a plain object keyed by the numeric Telegram user id) is an
  association list; reads are `Store.get`, `obj[k] = v` is `Store.set` and
  `delete obj[k]` is `Store.delete`.
* A session object has the four properties the program ever writes: `chain`,
  `messageId`, `chatId`, `timestamp`; an absent property is `none`.
* `new Date()` is a parameter (milliseconds since the epoch).
* Page numbers are non-negative integers; where the program prints the result
  of an arithmetic operation on one (`currentPage - 1`, `currentPage + 1`), the
  rounding of JavaScript numbers is `toDouble` and the printing is
  `jsNumberToString`.
* Calls into the transport (`ctx.reply`, `ctx.editMessageText`, ...) are
  recorded as a list of `Effect`s; their results (a failing edit, the message
  that was sent) are parameters of the handler.
-/

namespace CosmosClerk

/-! ## JavaScript strings -/

/-- JavaScript `s.startsWith(p)`. -/
def jsStartsWith (s p : String) : Bool :=
  p.data.isPrefixOf s.data

/-- JavaScript `s.replace(pat, '')` for a string pattern on character lists: the first
occurrence of `pat` (scanning from the left) is removed. -/
def removeFirstChars (pat : List Char) : List Char → List Char
  | [] => []
  | c :: cs =>
    if pat.isPrefixOf (c :: cs) then (c :: cs).drop pat.length
    else c :: removeFirstChars pat cs

/-- JavaScript `s.replace(pat, '')` with a string pattern `pat`. -/
def jsRemoveFirst (s pat : String) : String :=
  String.mk (removeFirstChars pat.data s.data)

/-- ECMAScript `WhiteSpace` and `LineTerminator` code points, the characters
removed by `String.prototype.trim`. -/
def isJsWhiteSpace (c : Char) : Bool :=
  c.val = 0x09 || c.val = 0x0A || c.val = 0x0B || c.val = 0x0C || c.val = 0x0D ||
  c.val = 0x20 || c.val = 0xA0 || c.val = 0x1680 ||
  (0x2000 ≤ c.val && c.val ≤ 0x200A) ||
  c.val = 0x2028 || c.val = 0x2029 || c.val = 0x202F || c.val = 0x205F ||
  c.val = 0x3000 || c.val = 0xFEFF

/-- JavaScript `s.trim()`. -/
def jsTrim (s : String) : String :=
  String.mk ((s.data.dropWhile isJsWhiteSpace).reverse.dropWhile isJsWhiteSpace).reverse

/-- JavaScript `arr.slice(start, end)` for non-negative integer bounds. -/
def jsSlice {α : Type} (xs : List α) (start stop : Nat) : List α :=
  (xs.take stop).drop start

/-! ## The session store (`userLastAction`) -/

abbrev UserId := Nat

/-- A session object stored in `userLastAction`; also the shape of the `data`
argument of `updateUserLastAction`. -/
structure Session where
  chain : Option String
  messageId : Option Int
  chatId : Option Int
  timestamp : Option Int
deriving DecidableEq, Repr

/-- The object literal `{}` of the text handler. -/
def Session.empty : Session :=
  { chain := none, messageId := none, chatId := none, timestamp := none }

abbrev Store := List (UserId × Session)

/-- The read `userLastAction[userId]`. -/
def Store.get : Store → UserId → Option Session
  | [], _ => none
  | (k, v) :: rest, u => if k = u then some v else Store.get rest u

/-- The statement `delete userLastAction[userId]`. -/
def Store.delete : Store → UserId → Store
  | [], _ => []
  | (k, v) :: rest, u =>
    if k = u then Store.delete rest u else (k, v) :: Store.delete rest u

/-- The assignment `userLastAction[userId] = v`. -/
def Store.set : Store → UserId → Session → Store
  | [], u, s => [(u, s)]
  | (k, v) :: rest, u, s =>
    if k = u then (k, s) :: Store.delete rest u else (k, v) :: Store.set rest u s

/-- The keys `Object.keys(userLastAction)`. -/
def Store.keys (st : Store) : List UserId :=
  st.map Prod.fst

/-- Function `updateUserLastAction(userId, data)`: with an object `data` the entry
becomes `{...data, timestamp: new Date()}`; with `null` the entry is deleted. -/
def updateUserLastAction (st : Store) (userId : UserId) (data : Option Session)
    (now : Int) : Store :=
  match data with
  | some d =>
    Store.set st userId
      { chain := d.chain, messageId := d.messageId, chatId := d.chatId,
        timestamp := some now }
  | none => Store.delete st userId

/-- Function `resetUserSession(userId)`. -/
def resetUserSession (st : Store) (userId : UserId) (now : Int) : Store :=
  updateUserLastAction st userId none now

/-- The test `(now - new Date(session.timestamp)) > 300000` of
`cleanupUserSessions`.  A session without a timestamp gives `NaN > 300000`,
which is false. -/
def sessionExpired (now : Int) (s : Session) : Bool :=
  match s.timestamp with
  | some t => decide (now - t > 300000)
  | none => false

/-- The test of `cleanupUserSessions` on a store entry that may be absent. -/
def expiredAt (now : Int) (entry : Option Session) : Bool :=
  match entry with
  | some s => sessionExpired now s
  | none => false

/-- One iteration of the `forEach` callback of `cleanupUserSessions`. -/
def cleanupStep (now : Int) (st : Store) (userId : UserId) : Store :=
  match Store.get st userId with
  | some s => if sessionExpired now s then Store.delete st userId else st
  | none => st

/-- Function `cleanupUserSessions()`, run at time `now`. -/
def cleanupUserSessions (st : Store) (now : Int) : Store :=
  (Store.keys st).foldl (cleanupStep now) st

/-! ## The paginator -/

/-- The value of `Markup.button.callback(text, data)`. -/
structure Button where
  text : String
  callback_data : String
deriving DecidableEq, Repr

/-- The `inline_keyboard` of `Markup.inlineKeyboard(rows)` for a list of rows. -/
abbrev Keyboard := List (List Button)

/-- The value `Math.ceil(n / pageSize)` for a positive `pageSize`. -/
def totalPages (n pageSize : Nat) : Nat :=
  (n + pageSize - 1) / pageSize

/-- The callback of `chainsToShow.map(...)` in `paginateChains`. -/
def chainButton (lastSelectedChain : Option String) (chain : String) : Button :=
  let isSelected := decide (some chain = lastSelectedChain)
  let buttonText := if isSelected then "🔴 " ++ chain else chain
  { text := buttonText, callback_data := "select_chain:" ++ chain }

/-- The loop `for (let i = 0; i < buttons.length; i += 3)` of `paginateChains`,
started at index `i` with the rows pushed so far; `fuel` bounds the number of
iterations. -/
def rowsLoop (buttons : List Button) : Nat → Nat → Keyboard → Keyboard
  | 0, _, rows => rows
  | fuel + 1, i, rows =>
    if i < buttons.length then
      rowsLoop buttons fuel (i + 3) (rows ++ [jsSlice buttons i (i + 3)])
    else rows

/-- The search behind `toDouble`: the least power of two `u`, starting from
`u`, with `n / u < 2^53`; `fuel` bounds the number of doublings. -/
def doubleUlp : Nat → Nat → Nat → Nat
  | 0, _, u => u
  | fuel + 1, n, u => if n / u < 2 ^ 53 then u else doubleUlp fuel n (2 * u)

/-- The JavaScript number (IEEE 754 double) nearest to the integer `n`, ties
going to the even significand: the result of an arithmetic operation whose
exact value is `n`.  Integers up to `2^53` are numbers themselves; from there on
the numbers are the multiples of `2`, then of `4`, and so on.  Meant for
`n < 2^1024`, which covers `x - 1` and `x + 1` for every finite number `x`. -/
def toDouble (n : Nat) : Nat :=
  let ulp := doubleUlp 1024 n 1
  let q := n / ulp
  let r := n % ulp
  if 2 * r < ulp then q * ulp
  else if ulp < 2 * r then (q + 1) * ulp
  else if q % 2 = 0 then q * ulp else (q + 1) * ulp

/-- The absolute difference of two naturals. -/
def absDiff (a b : Nat) : Nat :=
  if a ≤ b then b - a else a - b

/-- The pairs `(s, n)` of `Number::toString` for a given digit count `k`:
`10^(k-1) ≤ s < 10^k` and `s * 10^(n-k)` is read back as the number `x`. -/
def digitCandidates (x k : Nat) : List (Nat × Nat) :=
  let d := (Nat.toDigits 10 x).length
  [d, d + 1].flatMap (fun n =>
    if n < k then []
    else
      let lo := x / 10 ^ (n - k)
      ([lo, lo + 1].filter (fun s =>
        decide (10 ^ (k - 1) ≤ s) && decide (s < 10 ^ k) &&
          decide (toDouble (s * 10 ^ (n - k)) = x))).map (fun s => (s, n)))

/-- Among candidates for the digit count `k`, the one whose value is closest to
`x`, an even `s` winning a tie. -/
def closestCandidate (x k : Nat) : List (Nat × Nat) → Option (Nat × Nat)
  | [] => none
  | c :: cs =>
    match closestCandidate x k cs with
    | none => some c
    | some b =>
      let dc := absDiff (c.1 * 10 ^ (c.2 - k)) x
      let db := absDiff (b.1 * 10 ^ (b.2 - k)) x
      if dc < db then some c
      else if db < dc then some b
      else if c.1 % 2 = 0 then some c else some b

/-- The digits `s` and the exponent position `n` that `Number::toString` picks
for the number `x`: the smallest digit count `k`, tried upwards from `k`, that
reads back as `x`.  Seventeen digits always do. -/
def shortestDigits (x : Nat) : Nat → Nat → Nat × Nat
  | 0, _ => (x, (Nat.toDigits 10 x).length)
  | fuel + 1, k =>
    match closestCandidate x k (digitCandidates x k) with
    | some c => c
    | none => shortestDigits x fuel (k + 1)

/-- The string `Number::toString` gives for a non-negative integer-valued
number `x`, as a template literal inserts it.  Up to `2^53` every integer is a
number and the shortest digits that read back as `x` are its decimal digits.
Above, the shortest digits are padded with zeros while `x < 10^21`, and written
in exponent form from `10^21` on. -/
def jsNumberToString (x : Nat) : String :=
  if x ≤ 2 ^ 53 then toString x
  else
    let (s, n) := shortestDigits x 17 1
    let digits := Nat.toDigits 10 s
    if n ≤ 21 then String.mk (digits ++ List.replicate (n - digits.length) '0')
    else
      match digits with
      | [] => ""
      | [d] => String.mk [d] ++ "e+" ++ toString (n - 1)
      | d :: rest => String.mk (d :: '.' :: rest) ++ "e+" ++ toString (n - 1)

/-- The two `if`s filling `navigationButtons`.  `currentPage` is the value of a
JavaScript number, so `currentPage - 1` and `currentPage + 1` are rounded to the
nearest number before the template literal prints them. -/
def navigationButtons (currentPage total : Nat) : List Button :=
  (if currentPage > 0 then
    [{ text := "← Previous",
       callback_data := "page:" ++ jsNumberToString (toDouble (currentPage - 1)) }]
   else []) ++
  (if (currentPage : Int) < (total : Int) - 1 then
    [{ text := "Next →",
       callback_data := "page:" ++ jsNumberToString (toDouble (currentPage + 1)) }]
   else [])

/-- Function `paginateChains(chains, currentPage, userId, pageSize)`; the result is the
`inline_keyboard` of the returned markup.  `currentPage` is the value of a
finite, non-negative, integer-valued JavaScript number.  The products and sums
`start` and `end` are taken exactly: an array is shorter than `2^32`, so
whenever rounding would change them the slice is empty either way. -/
def paginateChains (st : Store) (chains : List String) (currentPage : Nat)
    (userId : UserId) (pageSize : Nat) : Keyboard :=
  let total := totalPages chains.length pageSize
  let start := currentPage * pageSize
  let stop := start + pageSize
  let chainsToShow := jsSlice chains start stop
  let lastSelectedChain := (Store.get st userId).bind Session.chain
  let buttons := chainsToShow.map (chainButton lastSelectedChain)
  let rowsOfButtons := rowsLoop buttons buttons.length 0 []
  let navigation := navigationButtons currentPage total
  if navigation.length > 0 then rowsOfButtons ++ [navigation] else rowsOfButtons

/-- Rows of three, the closed form of `rowsLoop`. -/
def chunks3 {α : Type} : List α → List (List α)
  | [] => []
  | [a] => [[a]]
  | [a, b] => [[a, b]]
  | a :: b :: c :: rest => [a, b, c] :: chunks3 rest

/-! ## The transport and the outside world -/

/-- The constant `pageSize`. -/
def pageSize : Nat := 18

/-- A chat message: `ctx.callbackQuery.message`, or the message returned by
`ctx.reply`. -/
structure Message where
  message_id : Int
  chat_id : Int
  text : String
deriving DecidableEq, Repr

/-- A call into the transport or the network made by a handler.  Formatting
options (`parse_mode`, `disable_web_page_preview`) are left out. -/
inductive Effect where
  /-- Models `ctx.reply(text, keyboard)` and `ctx.replyWithMarkdown(text)`. -/
  | reply (text : String) (keyboard : Option Keyboard)
  /-- Models `ctx.editMessageText` and `ctx.telegram.editMessageText`. -/
  | editMessageText (chatId messageId : Option Int) (text : String)
      (keyboard : Option Keyboard)
  /-- Models `ctx.editMessageReplyMarkup`. -/
  | editMessageReplyMarkup (chatId messageId : Int) (keyboard : Keyboard)
  /-- Models `ctx.answerCbQuery(text)`. -/
  | answerCbQuery (text : String)
  /-- Models a request issued by `https.get(url, ...)`. -/
  | httpsGet (url : String)
deriving DecidableEq, Repr

/-- An `editMessageText` or `editMessageReplyMarkup` call. -/
def Effect.isEdit : Effect → Bool
  | .editMessageText _ _ _ _ => true
  | .editMessageReplyMarkup _ _ _ => true
  | _ => false

/-- A `reply` call. -/
def Effect.isReply : Effect → Bool
  | .reply _ _ => true
  | _ => false

/-- What a handler run gets from outside the program. -/
structure Env where
  /-- Value of `new Date()` at the first store update of the run. -/
  now : Int
  /-- Value of `new Date()` at a second store update of the run. -/
  later : Int
  /-- Result of `await getChainList()`: the catalog, or the error it throws. -/
  catalog : Except String (List String)
  /-- Result of `await chainInfo(chain)`. -/
  chainInfo : String → String
  /-- Result of `await chainEndpoints(chain)`. -/
  chainEndpoints : String → String
  /-- Result of `await chainPeerNodes(chain)`. -/
  chainPeerNodes : String → String
  /-- Result of `await chainBlockExplorers(chain)`. -/
  chainBlockExplorers : String → String
  /-- Fate of the edit call of the run: `none` when it resolves, `some d` when
  it rejects with an error whose `description` is `d`. -/
  editError : Option (Option String)
  /-- The message `ctx.reply` resolves to. -/
  sent : Message

/-- The context of a callback query: `ctx.from.id` and
`ctx.callbackQuery.message`. -/
structure CallbackCtx where
  fromId : UserId
  message : Message
deriving DecidableEq, Repr

/-- The context of a text message: `ctx.from.id` and `ctx.message.text`. -/
structure TextCtx where
  fromId : UserId
  text : String
deriving DecidableEq, Repr

/-- What a handler run leaves behind: the store, the calls it made, and the
exception that left the handler, if any. -/
structure Outcome where
  store : Store
  effects : List Effect
  thrown : Option String
deriving DecidableEq, Repr

/-- The chain `c` when `userAction && userAction.chain` is truthy
(`userAction.chain` is then a non-empty string). -/
def hasChain (userAction : Option Session) : Option String :=
  match userAction with
  | some s =>
    match s.chain with
    | some c => if c = "" then none else some c
    | none => none
  | none => none

/-- Truthiness of a number-valued property such as `userAction.messageId`. -/
def truthyId (x : Option Int) : Bool :=
  match x with
  | some n => decide (n ≠ 0)
  | none => false

/-- The notice sent when no chain is selected. -/
def noChainNotice : String := "No chain selected. Please select a chain first."

/-- The `inline_keyboard` of `sendMainMenu(ctx, userId)`: six buttons laid out
by `Markup.inlineKeyboard(buttons, { columns: 2 })`. -/
def sendMainMenu : Keyboard :=
  [[⟨"Chain Info", "chain_info"⟩, ⟨"Peer Nodes", "peer_nodes"⟩],
   [⟨"Endpoints", "endpoints"⟩, ⟨"Block Explorers", "block_explorers"⟩],
   [⟨"IBC-ID", "ibc_id"⟩, ⟨"Pool Incentives [non-sc]", "pool_incentives"⟩]]

/-! ## Handlers -/

/-- Function `startInteraction(ctx)`, the body of `/start` and `/reset`. -/
def startInteraction (st : Store) (userId : UserId) (env : Env) : Outcome :=
  let st1 := resetUserSession st userId env.now
  match env.catalog with
  | .error e => ⟨st1, [], some e⟩
  | .ok chains =>
    ⟨st1, [.reply "Select a chain:" (some (paginateChains st1 chains 0 userId pageSize))],
      none⟩

/-- The handler of `bot.action(/^select_chain:(.+)$/)`; `chain` is
`ctx.match[1]`. -/
def selectChainAction (st : Store) (ctx : CallbackCtx) (chain : String) (env : Env) :
    Outcome :=
  let st1 := updateUserLastAction st ctx.fromId
    (some { chain := some chain, messageId := some ctx.message.message_id,
            chatId := some ctx.message.chat_id, timestamp := none }) env.now
  let edit := Effect.editMessageText (some ctx.message.chat_id)
    (some ctx.message.message_id) "Select an action:" (some sendMainMenu)
  match env.editError with
  | none => ⟨st1, [edit], none⟩
  | some description =>
    if description = some "Bad Request: message to edit not found" then
      let st2 := updateUserLastAction st1 ctx.fromId
        (some { chain := none, messageId := some env.sent.message_id,
                chatId := some env.sent.chat_id, timestamp := none }) env.later
      ⟨st2, [edit, .reply "Select an action:" (some sendMainMenu)], none⟩
    else ⟨st1, [edit], none⟩

/-- The handler of `bot.action('ibc_id')`. -/
def ibcIdAction (st : Store) (ctx : CallbackCtx) : Outcome :=
  match hasChain (Store.get st ctx.fromId) with
  | some chain => ⟨st, [.reply ("Enter IBC denom for " ++ chain ++ ":") none], none⟩
  | none => ⟨st, [.reply noChainNotice none], none⟩

/-- The handler of `bot.action('pool_incentives')`.  The identifier
`expectedAction` is declared nowhere in the program, so the assignment after
the prompt throws a `ReferenceError`. -/
def poolIncentivesAction (st : Store) (ctx : CallbackCtx) : Outcome :=
  match hasChain (Store.get st ctx.fromId) with
  | some chain =>
    ⟨st, [.reply ("Enter pool_id for " ++ chain ++ " (AMM pool-type only):") none],
      some "ReferenceError: expectedAction is not defined"⟩
  | none => ⟨st, [.reply noChainNotice none], none⟩

/-- The value `parseInt(digits)` for a run of decimal digits. -/
def parseInt (digits : List Char) : Nat :=
  digits.foldl (fun acc c => acc * 10 + (c.toNat - 48)) 0

/-- The handler of `bot.action(/page:(\d+)/)`; `digits` is `ctx.match[1]`. -/
def pageAction (st : Store) (ctx : CallbackCtx) (digits : String) (env : Env) : Outcome :=
  let page := parseInt digits.data
  match env.catalog with
  | .error _ => ⟨st, [.reply "An error occurred while processing your request." none], none⟩
  | .ok chains =>
    if chains.length = 0 then ⟨st, [.reply "No chains available." none], none⟩
    else if (page : Int) < 0 ∨ page ≥ totalPages chains.length pageSize then
      ⟨st, [.reply "Invalid page number." none], none⟩
    else
      let keyboard := paginateChains st chains page ctx.fromId pageSize
      if keyboard.length = 0 then
        ⟨st, [.reply "Unable to generate navigation buttons." none], none⟩
      else
        let edit := Effect.editMessageReplyMarkup ctx.message.chat_id
          ctx.message.message_id keyboard
        match env.editError with
        | none => ⟨st, [edit], none⟩
        | some _ =>
          ⟨st, [edit, .reply "An error occurred while processing your request." none], none⟩

/-- The handler of `bot.action('chain_info')`. -/
def chainInfoAction (st : Store) (ctx : CallbackCtx) (env : Env) : Outcome :=
  match hasChain (Store.get st ctx.fromId) with
  | some chain =>
    let newChainInfo := env.chainInfo chain
    if newChainInfo = ctx.message.text then
      ⟨st, [.answerCbQuery "The chain information is already up to date."], none⟩
    else
      let edit := Effect.editMessageText (some ctx.message.chat_id)
        (some ctx.message.message_id) newChainInfo none
      match env.editError with
      | none => ⟨st, [edit], none⟩
      | some (some _) => ⟨st, [edit], none⟩
      | some none =>
        ⟨st, [edit], some "TypeError: Cannot read properties of undefined"⟩
  | none => ⟨st, [.reply noChainNotice none], none⟩

/-- The `try` block shared by the `endpoints`, `peer_nodes` and
`block_explorers` handlers: edit the tracked message, or send `text` and track
the sent message.  A failing edit is caught and ignored. -/
def editOrSend (st : Store) (ctx : CallbackCtx) (userAction : Session) (text : String)
    (env : Env) : Outcome :=
  if truthyId userAction.messageId then
    ⟨st, [.editMessageText userAction.chatId userAction.messageId text none], none⟩
  else
    ⟨updateUserLastAction st ctx.fromId
        (some { chain := none, messageId := some env.sent.message_id,
                chatId := some env.sent.chat_id, timestamp := none }) env.now,
      [.reply text none], none⟩

/-- The escaping `endpoints.replace(/_/g, '\\_')`. -/
def escapeUnderscores (s : String) : String :=
  String.mk (s.data.flatMap (fun c => if c = '_' then [Char.ofNat 92, '_'] else [c]))

/-- Session of `userId` when `userAction && userAction.chain` is truthy. -/
def chainSession (st : Store) (userId : UserId) : Option (Session × String) :=
  match Store.get st userId with
  | some s =>
    match hasChain (some s) with
    | some chain => some (s, chain)
    | none => none
  | none => none

/-- The handler of `bot.action('endpoints')`. -/
def endpointsAction (st : Store) (ctx : CallbackCtx) (env : Env) : Outcome :=
  match chainSession st ctx.fromId with
  | some (userAction, chain) =>
    editOrSend st ctx userAction (escapeUnderscores (env.chainEndpoints chain)) env
  | none => ⟨st, [.reply noChainNotice none], none⟩

/-- The handler of `bot.action('peer_nodes')`. -/
def peerNodesAction (st : Store) (ctx : CallbackCtx) (env : Env) : Outcome :=
  match chainSession st ctx.fromId with
  | some (userAction, chain) => editOrSend st ctx userAction (env.chainPeerNodes chain) env
  | none => ⟨st, [.reply noChainNotice none], none⟩

/-- The handler of `bot.action('block_explorers')`. -/
def blockExplorersAction (st : Store) (ctx : CallbackCtx) (env : Env) : Outcome :=
  match chainSession st ctx.fromId with
  | some (userAction, chain) =>
    editOrSend st ctx userAction (env.chainBlockExplorers chain) env
  | none => ⟨st, [.reply noChainNotice none], none⟩

/-! ## Callback dispatch -/

/-- A `LineTerminator`, which `.` of a regular expression does not match. -/
def isLineTerminator (c : Char) : Bool :=
  c.val = 0x0A || c.val = 0x0D || c.val = 0x2028 || c.val = 0x2029

/-- The match `data.match(/^select_chain:(.+)$/)`: the capture, if the pattern matches. -/
def matchSelectChain (data : String) : Option String :=
  if jsStartsWith data "select_chain:" then
    let rest := data.data.drop 13
    if rest ≠ [] ∧ rest.all (fun c => !isLineTerminator c) then some (String.mk rest)
    else none
  else none

/-- The character class `\d`. -/
def isDigit (c : Char) : Bool :=
  decide ('0'.val ≤ c.val) && decide (c.val ≤ '9'.val)

/-- The leftmost match of `/page:(\d+)/` in a character list: its capture. -/
def matchPageChars : List Char → Option (List Char)
  | [] => none
  | c :: cs =>
    if ("page:" : String).data.isPrefixOf (c :: cs) then
      let digits := ((c :: cs).drop 5).takeWhile isDigit
      if digits ≠ [] then some digits else matchPageChars cs
    else matchPageChars cs

/-- The match `data.match(/page:(\d+)/)`: the capture, if the pattern matches. -/
def matchPage (data : String) : Option String :=
  (matchPageChars data.data).map String.mk

/-- The `bot.action` handlers in registration order, applied to a callback
query with payload `data`; the first trigger that matches runs its handler,
and a payload that matches none is dropped. -/
def onCallbackQuery (st : Store) (ctx : CallbackCtx) (data : String) (env : Env) :
    Outcome :=
  match matchSelectChain data with
  | some chain => selectChainAction st ctx chain env
  | none =>
    if data = "ibc_id" then ibcIdAction st ctx
    else if data = "pool_incentives" then poolIncentivesAction st ctx
    else
      match matchPage data with
      | some digits => pageAction st ctx digits env
      | none =>
        if data = "chain_info" then chainInfoAction st ctx env
        else if data = "endpoints" then endpointsAction st ctx env
        else if data = "peer_nodes" then peerNodesAction st ctx env
        else if data = "block_explorers" then blockExplorersAction st ctx env
        else ⟨st, [], none⟩

/-! ## Free text -/

/-- The call `https.get(url, ...)`.  The `https` module of Node serves only
`https:` URLs: for a URL of another protocol it throws `ERR_INVALID_PROTOCOL`
before any request is made (the error text is the one for an `http:` URL).
For an `https:` URL the request is issued; the replies sent from its callbacks
once the response has arrived are not modelled. -/
def httpsGet (st : Store) (url : String) : Outcome :=
  if jsStartsWith url "https:" then ⟨st, [.httpsGet url], none⟩
  else
    ⟨st, [],
      some "TypeError [ERR_INVALID_PROTOCOL]: Protocol \"http:\" not supported. Expected \"https:\""⟩

/-- Function `handlePoolIncentives(ctx, poolId)`: it hands the `http://` pool
URL to `https.get`, whose exception leaves the function. -/
def handlePoolIncentives (st : Store) (poolId : String) : Outcome :=
  httpsGet st ("http://jasbanza.dedicated.co.za:7000/pool/" ++ poolId)

/-- The read `chainData.restAddress` in the text handler.  `chainData` is the string
returned by `chainInfo`, and a string has no property `restAddress`: the read
yields `undefined`. -/
def restAddressOf (_chainData : String) : Option String :=
  none

/-- The replacement `restAddress.replace(/\/+$/, '')`. -/
def stripTrailingSlashes (s : String) : String :=
  String.mk (s.data.reverse.dropWhile (fun c => c = '/')).reverse

/-- The handler of `bot.on('text')`. -/
def textHandler (st : Store) (ctx : TextCtx) (env : Env) : Outcome :=
  let text := jsTrim ctx.text
  let userId := ctx.fromId
  if text = "/start" then
    let st1 :=
      match Store.get st userId with
      | some _ => st
      | none => Store.set st userId Session.empty
    match env.catalog with
    | .error e => ⟨st1, [], some e⟩
    | .ok chains =>
      ⟨st1, [.reply "Select a chain:" (some (paginateChains st1 chains 0 userId pageSize))],
        none⟩
  else if jsStartsWith text "ibc/" then
    let ibcHash := jsRemoveFirst text "ibc/"
    match hasChain (Store.get st userId) with
    | some chain =>
      let chainData := env.chainInfo chain
      match (if chainData = "" then none else restAddressOf chainData) with
      | some restAddress =>
        httpsGet st (stripTrailingSlashes restAddress ++
          "/ibc/apps/transfer/v1/denom_traces/" ++ ibcHash)
      | none =>
        ⟨st, [.reply "Error: REST address not found for the selected chain." none], none⟩
    | none => ⟨st, [.reply noChainNotice none], none⟩
  else if jsStartsWith text "pool/" then
    handlePoolIncentives st (jsRemoveFirst text "pool/")
  else ⟨st, [], none⟩

/-- A text message update: `ctx.from.id`, `ctx.message.text`, and the command
named by a `bot_command` entity at offset 0 of the message (`start` for
`/start`), if the message carries one. -/
structure MessageCtx where
  fromId : UserId
  text : String
  command : Option String
deriving DecidableEq, Repr

/-- The handlers for text messages in registration order: `bot.start`,
`bot.command('reset')`, then `bot.on('text')`.  The command handlers run for a
message carrying their command entity and do not pass the update on; every
other text message reaches the text handler. -/
def onMessage (st : Store) (msg : MessageCtx) (env : Env) : Outcome :=
  if msg.command = some "start" then startInteraction st msg.fromId env
  else if msg.command = some "reset" then startInteraction st msg.fromId env
  else textHandler st ⟨msg.fromId, msg.text⟩ env

/-! ## The chain catalog -/

/-- An entry of `fs.readdirSync(REPO_DIR, { withFileTypes: true })`. -/
structure Dirent where
  name : String
  isDirectory : Bool
deriving DecidableEq, Repr

/-- The test `/^[A-Za-z0-9]/.test(name)`. -/
def startsAlphanumeric (name : String) : Bool :=
  match name.data with
  | [] => false
  | c :: _ =>
    (decide ('A'.val ≤ c.val) && decide (c.val ≤ 'Z'.val)) ||
    (decide ('a'.val ≤ c.val) && decide (c.val ≤ 'z'.val)) ||
    isDigit c

/-- Function `getChainList()`.  `root` is what `fs.readdirSync(REPO_DIR, ...)`
gives: the directory entries, or the error it throws.  `localeCompare a b` is
`a.localeCompare(b, undefined, { sensitivity: 'base' })`, and `sort` is the
stable sort by that comparator.  The function has no `try`, so the error of
`readdirSync` leaves it. -/
def getChainList (localeCompare : String → String → Int)
    (root : Except String (List Dirent)) : Except String (List String) :=
  match root with
  | .error e => .error e
  | .ok entries =>
    let directories :=
      (entries.filter (fun dirent => dirent.isDirectory && startsAlphanumeric dirent.name)).map
        Dirent.name
    .ok (directories.insertionSort (fun a b => localeCompare a b ≤ 0))

/-! ## Reachable stores -/

/-- The stores reachable from the empty `userLastAction` by runs of
`startInteraction` (the `/start` and `/reset` commands), of the callback
handlers, of the text handler, and of the sweep `cleanupUserSessions`, each with
any context and any behaviour of the outside world. -/
inductive Reachable : Store → Prop where
  | init : Reachable []
  | start (st : Store) (userId : UserId) (env : Env) :
      Reachable st → Reachable (startInteraction st userId env).store
  | callback (st : Store) (ctx : CallbackCtx) (data : String) (env : Env) :
      Reachable st → Reachable (onCallbackQuery st ctx data env).store
  | text (st : Store) (ctx : TextCtx) (env : Env) :
      Reachable st → Reachable (textHandler st ctx env).store
  | sweep (st : Store) (now : Int) :
      Reachable st → Reachable (cleanupUserSessions st now)

/-- A session whose `messageId` and `chatId` are both set or both absent. -/
def Session.targetPaired (s : Session) : Prop :=
  (∃ m c : Int, s.messageId = some m ∧ s.chatId = some c) ∨
  (s.messageId = none ∧ s.chatId = none)

/-- Every session of the store has `messageId` and `chatId` both set or both
absent. -/
def Store.targetsPaired (st : Store) : Prop :=
  ∀ (u : UserId) (s : Session), Store.get st u = some s → s.targetPaired

/-! ## Lemmas on strings -/

theorem startsWith_select_of_select (c : String) :
    jsStartsWith ("select_chain:" ++ c) "select_chain:" = true := by
  simp [jsStartsWith, String.data_append, List.isPrefixOf_iff_prefix]

theorem startsWith_select_of_page (s : String) :
    jsStartsWith ("page:" ++ s) "select_chain:" = false := by
  have h : ("page:" : String).data = ['p', 'a', 'g', 'e', ':'] := rfl
  have h2 : ("select_chain:" : String).data =
      ['s', 'e', 'l', 'e', 'c', 't', '_', 'c', 'h', 'a', 'i', 'n', ':'] := rfl
  simp [jsStartsWith, String.data_append, h, h2, List.isPrefixOf]

theorem startsWith_page_of_page (s : String) :
    jsStartsWith ("page:" ++ s) "page:" = true := by
  simp [jsStartsWith, String.data_append, List.isPrefixOf_iff_prefix]

theorem startsWith_page_of_select (c : String) :
    jsStartsWith ("select_chain:" ++ c) "page:" = false := by
  have h : ("page:" : String).data = ['p', 'a', 'g', 'e', ':'] := rfl
  have h2 : ("select_chain:" : String).data =
      ['s', 'e', 'l', 'e', 'c', 't', '_', 'c', 'h', 'a', 'i', 'n', ':'] := rfl
  simp [jsStartsWith, String.data_append, h, h2, List.isPrefixOf]

/-! ## Lemmas on the row loop -/

theorem chunks3_join {α : Type} : ∀ l : List α, (chunks3 l).flatten = l
  | [] => rfl
  | [_] => rfl
  | [_, _] => rfl
  | a :: b :: c :: rest => by
    simp [chunks3, chunks3_join rest]

theorem chunks3_row_bounds {α : Type} :
    ∀ (l : List α) (row : List α), row ∈ chunks3 l → 1 ≤ row.length ∧ row.length ≤ 3
  | [], row, h => by simp [chunks3] at h
  | [_], row, h => by simp [chunks3] at h; simp [h]
  | [_, _], row, h => by simp [chunks3] at h; simp [h]
  | a :: b :: c :: rest, row, h => by
    simp only [chunks3, List.mem_cons] at h
    rcases h with h | h
    · simp [h]
    · exact chunks3_row_bounds rest row h

theorem chunks3_full_rows {α : Type} :
    ∀ (l : List α) (i : Nat) (row : List α), (chunks3 l)[i]? = some row →
      i + 1 < (chunks3 l).length → row.length = 3
  | [], i, row, _, h => by simp [chunks3] at h
  | [_], i, row, _, h => by simp [chunks3] at h
  | [_, _], i, row, _, h => by simp [chunks3] at h
  | a :: b :: c :: rest, 0, row, hr, _ => by
    simp [chunks3] at hr
    simp [← hr]
  | a :: b :: c :: rest, i + 1, row, hr, h => by
    simp only [chunks3, List.getElem?_cons_succ] at hr
    simp only [chunks3, List.length_cons] at h
    exact chunks3_full_rows rest i row hr (by omega)

theorem chunks3_step {α : Type} (l : List α) (h : l ≠ []) :
    chunks3 l = l.take 3 :: chunks3 (l.drop 3) := by
  match l, h with
  | [_], _ => rfl
  | [_, _], _ => rfl
  | _ :: _ :: _ :: _, _ => rfl

theorem jsSlice_eq_drop_take {α : Type} (xs : List α) (i n : Nat) :
    jsSlice xs i (i + n) = (xs.drop i).take n := by
  simp [jsSlice, List.drop_take]

theorem rowsLoop_eq (buttons : List Button) :
    ∀ (fuel i : Nat) (rows : Keyboard), buttons.length ≤ i + 3 * fuel →
      rowsLoop buttons fuel i rows = rows ++ chunks3 (buttons.drop i)
  | 0, i, rows, h => by
    have : buttons.drop i = [] := List.drop_eq_nil_of_le (by omega)
    simp [rowsLoop, this, chunks3]
  | fuel + 1, i, rows, h => by
    by_cases hi : i < buttons.length
    · have hne : buttons.drop i ≠ [] := by
        intro h0
        have := List.drop_eq_nil_iff.mp h0
        omega
      rw [rowsLoop, if_pos hi, rowsLoop_eq buttons fuel (i + 3) _ (by omega),
        chunks3_step _ hne, jsSlice_eq_drop_take, List.drop_drop]
      simp [Nat.add_comm]
    · have : buttons.drop i = [] := List.drop_eq_nil_of_le (by omega)
      simp [rowsLoop, hi, this, chunks3]

/-! ## Lemmas on the store -/

theorem get_delete_self (st : Store) (u : UserId) : Store.get (Store.delete st u) u = none := by
  induction st with
  | nil => rfl
  | cons e rest ih =>
    obtain ⟨k, v⟩ := e
    by_cases h : k = u
    · simp [Store.delete, h, ih]
    · simp [Store.delete, Store.get, h, ih]

theorem get_delete_ne (st : Store) (u w : UserId) (h : w ≠ u) :
    Store.get (Store.delete st u) w = Store.get st w := by
  induction st with
  | nil => rfl
  | cons e rest ih =>
    obtain ⟨k, v⟩ := e
    have hu : ¬ u = w := fun e => h e.symm
    by_cases hk : k = u
    · subst hk
      simp [Store.delete, Store.get, hu, ih]
    · by_cases hw : k = w
      · subst hw
        simp [Store.delete, Store.get, h]
      · simp [Store.delete, Store.get, hk, hw, ih]

theorem get_set_self (st : Store) (u : UserId) (s : Session) :
    Store.get (Store.set st u s) u = some s := by
  induction st with
  | nil => simp [Store.set, Store.get]
  | cons e rest ih =>
    obtain ⟨k, v⟩ := e
    by_cases h : k = u
    · simp [Store.set, Store.get, h]
    · simp [Store.set, Store.get, h, ih]

theorem get_set_ne (st : Store) (u w : UserId) (s : Session) (h : w ≠ u) :
    Store.get (Store.set st u s) w = Store.get st w := by
  have hu : ¬ u = w := fun e => h e.symm
  induction st with
  | nil => simp [Store.set, Store.get, hu]
  | cons e rest ih =>
    obtain ⟨k, v⟩ := e
    by_cases hk : k = u
    · subst hk
      simp [Store.set, Store.get, hu, get_delete_ne rest k w h]
    · by_cases hw : k = w
      · subst hw
        simp [Store.set, Store.get, h]
      · simp [Store.set, Store.get, hk, hw, ih]

theorem get_eq_none_of_not_mem_keys (st : Store) (u : UserId) (h : u ∉ Store.keys st) :
    Store.get st u = none := by
  induction st with
  | nil => rfl
  | cons e rest ih =>
    obtain ⟨k, v⟩ := e
    simp only [Store.keys, List.map_cons, List.mem_cons, not_or] at h
    have hk : ¬ k = u := fun e => h.1 e.symm
    simp only [Store.get, hk, if_false]
    exact ih h.2

/-! ## Lemmas on the paginator -/

theorem paginateChains_eq (st : Store) (chains : List String) (k u p : Nat) :
    paginateChains st chains k u p =
      chunks3 ((jsSlice chains (k * p) (k * p + p)).map
        (chainButton ((Store.get st u).bind Session.chain))) ++
      (if (navigationButtons k (totalPages chains.length p)).length > 0 then
        [navigationButtons k (totalPages chains.length p)] else []) := by
  unfold paginateChains
  simp only []
  rw [rowsLoop_eq _ _ 0 [] (by omega)]
  split <;> simp

theorem navigationButtons_page (k t : Nat) :
    ∀ b ∈ navigationButtons k t, ∃ s, b.callback_data = "page:" ++ s := by
  intro b hb
  unfold navigationButtons at hb
  rcases List.mem_append.mp hb with h | h
  · split at h
    · simp only [List.mem_singleton] at h
      exact ⟨_, by rw [h]⟩
    · simp at h
  · split at h
    · simp only [List.mem_singleton] at h
      exact ⟨_, by rw [h]⟩
    · simp at h

theorem navigationButtons_length (k t : Nat) : (navigationButtons k t).length ≤ 2 := by
  unfold navigationButtons
  split <;> split <;> simp

theorem length_jsSlice {α : Type} (xs : List α) (i n : Nat) :
    (jsSlice xs i (i + n)).length = min n (xs.length - i) := by
  rw [jsSlice_eq_drop_take]
  simp

theorem filter_select_chainButtons (sel : Option String) (l : List String) :
    (l.map (chainButton sel)).filter
        (fun b => jsStartsWith b.callback_data "select_chain:") =
      l.map (chainButton sel) := by
  apply List.filter_eq_self.mpr
  intro b hb
  obtain ⟨c, _, rfl⟩ := List.mem_map.mp hb
  exact startsWith_select_of_select c

theorem filter_select_navigation (k t : Nat) :
    (navigationButtons k t).filter
        (fun b => jsStartsWith b.callback_data "select_chain:") = [] := by
  apply List.filter_eq_nil_iff.mpr
  intro b hb
  obtain ⟨s, hs⟩ := navigationButtons_page k t b hb
  simp [hs, startsWith_select_of_page]

theorem slice_length_cast (n k p : Nat) :
    ((min p (n - k * p) : Nat) : Int) =
      min (p : Int) (max 0 ((n : Int) - (k : Int) * (p : Int))) := by
  have h : ((k * p : Nat) : Int) = (k : Int) * (p : Int) := by push_cast; rfl
  rw [← h]
  generalize k * p = m
  omega

/-- C1: for every list of chains of length `n`, every page size `p > 0` and
every page index `k`, the keyboard of `paginateChains` holds exactly
`min(p, max(0, n - k*p))` chain buttons (buttons whose callback data starts with
`select_chain:`), and every row of the keyboard, the navigation row included,
holds at most 3 buttons. -/
theorem paginateChains_count_and_row_width (st : Store) (chains : List String)
    (k u p : Nat) (hp : 0 < p) :
    ((((paginateChains st chains k u p).flatten.filter
        (fun b => jsStartsWith b.callback_data "select_chain:")).length : Nat) : Int) =
      min (p : Int) (max 0 ((chains.length : Int) - (k : Int) * (p : Int))) ∧
    ∀ row ∈ paginateChains st chains k u p, row.length ≤ 3 := by
  have _ := hp
  rw [paginateChains_eq]
  constructor
  · rw [List.flatten_append, List.filter_append, chunks3_join, filter_select_chainButtons]
    have hnav : (if (navigationButtons k (totalPages chains.length p)).length > 0 then
        [navigationButtons k (totalPages chains.length p)] else []).flatten.filter
        (fun b => jsStartsWith b.callback_data "select_chain:") = [] := by
      split
      · simpa using filter_select_navigation k (totalPages chains.length p)
      · rfl
    rw [hnav, List.append_nil, List.length_map, length_jsSlice]
    exact slice_length_cast chains.length k p
  · intro row hrow
    rcases List.mem_append.mp hrow with h | h
    · exact (chunks3_row_bounds _ row h).2
    · split at h
      · simp only [List.mem_singleton] at h
        have := navigationButtons_length k (totalPages chains.length p)
        rw [h]
        omega
      · simp at h

theorem paginateChains_count_and_row_width_witness :
    0 < 3 ∧
    ((((paginateChains [] ["a", "b", "c", "d"] 1 7 3).flatten.filter
        (fun b => jsStartsWith b.callback_data "select_chain:")).length : Nat) : Int) =
      min ((3 : Nat) : Int)
        (max 0 (((["a", "b", "c", "d"] : List String).length : Int) -
          ((1 : Nat) : Int) * ((3 : Nat) : Int))) ∧
    ∀ row ∈ paginateChains [] ["a", "b", "c", "d"] 1 7 3, row.length ≤ 3 :=
  ⟨by decide, paginateChains_count_and_row_width [] ["a", "b", "c", "d"] 1 7 3 (by decide)⟩

theorem chainButton_eq (sel : Option String) (name : String) :
    chainButton sel name =
      { text := if sel = some name then "🔴 " ++ name else name,
        callback_data := "select_chain:" ++ name } := by
  unfold chainButton
  by_cases h : sel = some name
  · simp [h]
  · have h2 : ¬ some name = sel := fun e => h e.symm
    simp [h, h2]

theorem mem_chunks3_row {α : Type} (l : List α) (row : List α) (b : α)
    (hrow : row ∈ chunks3 l) (hb : b ∈ row) : b ∈ l := by
  have : b ∈ (chunks3 l).flatten := List.mem_flatten.mpr ⟨row, hrow, hb⟩
  rwa [chunks3_join] at this

/-- C2: the chain rows of `paginateChains` (all rows except the navigation
row), concatenated in order, are the buttons of `chains[k*p : k*p + p]` in the
same order; every chain row except possibly the last has exactly 3 buttons; each
button has callback data `select_chain:` followed by the chain name, and its
label is the marker followed by the name when the name is the chain stored in
the session of the user, and the bare name otherwise. -/
theorem paginateChains_chain_rows (st : Store) (chains : List String)
    (k u p : Nat) (hp : 0 < p) :
    ∃ rows nav : Keyboard,
      paginateChains st chains k u p = rows ++ nav ∧
      nav.length ≤ 1 ∧
      (∀ row ∈ nav, ∀ b ∈ row, jsStartsWith b.callback_data "page:" = true) ∧
      (∀ row ∈ rows, ∀ b ∈ row, jsStartsWith b.callback_data "page:" = false) ∧
      rows.flatten = ((chains.drop (k * p)).take p).map (fun name =>
        { text := if (Store.get st u).bind Session.chain = some name
                  then "🔴 " ++ name else name,
          callback_data := "select_chain:" ++ name }) ∧
      (∀ row ∈ rows, row ≠ []) ∧
      (∀ (i : Nat) (row : List Button), rows[i]? = some row → i + 1 < rows.length →
        row.length = 3) := by
  have _ := hp
  refine ⟨_, _, paginateChains_eq st chains k u p, ?_, ?_, ?_, ?_, ?_, ?_⟩
  · split <;> simp
  · intro row hrow b hb
    split at hrow
    · simp only [List.mem_singleton] at hrow
      subst hrow
      obtain ⟨s, hs⟩ := navigationButtons_page _ _ b hb
      rw [hs]
      exact startsWith_page_of_page s
    · simp at hrow
  · intro row hrow b hb
    have hmem := mem_chunks3_row _ row b hrow hb
    obtain ⟨c, _, rfl⟩ := List.mem_map.mp hmem
    exact startsWith_page_of_select c
  · rw [chunks3_join, jsSlice_eq_drop_take]
    apply List.map_congr_left
    intro name _
    exact chainButton_eq _ name
  · intro row hrow h0
    have := (chunks3_row_bounds _ row hrow).1
    simp [h0] at this
  · intro i row hi hlt
    exact chunks3_full_rows _ i row hi hlt

theorem paginateChains_chain_rows_witness :
    0 < 3 ∧
    ∃ rows nav : Keyboard,
      paginateChains [(7, ⟨some "b", none, none, none⟩)] ["a", "b", "c", "d"] 0 7 3 =
        rows ++ nav ∧
      nav.length ≤ 1 ∧
      (∀ row ∈ nav, ∀ b ∈ row, jsStartsWith b.callback_data "page:" = true) ∧
      (∀ row ∈ rows, ∀ b ∈ row, jsStartsWith b.callback_data "page:" = false) ∧
      rows.flatten = (((["a", "b", "c", "d"] : List String).drop (0 * 3)).take 3).map
        (fun name =>
        { text := if (Store.get [(7, ⟨some "b", none, none, none⟩)] 7).bind Session.chain =
                    some name
                  then "🔴 " ++ name else name,
          callback_data := "select_chain:" ++ name }) ∧
      (∀ row ∈ rows, row ≠ []) ∧
      (∀ (i : Nat) (row : List Button), rows[i]? = some row → i + 1 < rows.length →
        row.length = 3) :=
  ⟨by decide,
    paginateChains_chain_rows [(7, ⟨some "b", none, none, none⟩)] ["a", "b", "c", "d"] 0 7 3
      (by decide)⟩

theorem totalPages_eq_ceil (n p : Nat) (hp : 0 < p) :
    ((totalPages n p : Nat) : Int) = ⌈((n : ℚ) / (p : ℚ))⌉ := by
  symm
  rw [Int.ceil_eq_iff]
  unfold totalPages
  have hpq : (0 : ℚ) < (p : ℚ) := by exact_mod_cast hp
  have hdm := Nat.div_add_mod (n + p - 1) p
  have hlt := Nat.mod_lt (n + p - 1) hp
  generalize (n + p - 1) / p = q at *
  generalize (n + p - 1) % p = r at *
  have h1 : p * q + 1 ≤ n + p := by omega
  have h2 : n ≤ p * q := by omega
  have h1q : (p : ℚ) * q + 1 ≤ n + p := by exact_mod_cast h1
  have h2q : (n : ℚ) ≤ p * q := by exact_mod_cast h2
  constructor
  · rw [lt_div_iff₀ hpq]
    push_cast
    nlinarith
  · rw [div_le_iff₀ hpq]
    push_cast
    nlinarith

theorem previous_ne_next (a b : String) :
    (⟨"← Previous", a⟩ : Button) ≠ ⟨"Next →", b⟩ := by
  intro h
  have h2 : ("← Previous" : String) = "Next →" := congrArg Button.text h
  exact absurd h2 (by decide)

theorem page_button_not_in_chain_rows (sel : Option String) (l : List String)
    (t s : String) : ¬ ∃ row ∈ chunks3 (l.map (chainButton sel)), (⟨t, "page:" ++ s⟩ : Button) ∈ row := by
  rintro ⟨row, hrow, hb⟩
  have hmem := mem_chunks3_row _ row _ hrow hb
  obtain ⟨c, _, hc⟩ := List.mem_map.mp hmem
  have h1 := startsWith_select_of_select c
  have h2 := startsWith_select_of_page s
  have h3 : (chainButton sel c).callback_data = "page:" ++ s := by rw [hc]
  have h4 : (chainButton sel c).callback_data = "select_chain:" ++ c := rfl
  rw [← h3, h4, h1] at h2
  exact absurd h2 (by decide)

theorem toDouble_of_le (n : Nat) (h : n ≤ 2 ^ 53) : toDouble n = n := by
  rcases Nat.lt_or_eq_of_le h with hlt | heq
  · have hu : doubleUlp 1024 n 1 = 1 := by
      show (if n / 1 < 2 ^ 53 then 1 else doubleUlp 1023 n (2 * 1)) = 1
      rw [Nat.div_one, if_pos hlt]
    unfold toDouble
    simp only [hu, Nat.mod_one, Nat.div_one, Nat.mul_one]
    simp
  · subst heq
    decide

theorem toString_cast_sub_one (k : Nat) (hk : 0 < k) :
    toString ((k : Int) - 1) = toString (k - 1) := by
  have h : (k : Int) - 1 = Int.ofNat (k - 1) := by
    simp only [Int.ofNat_eq_coe]
    omega
  rw [h]
  rfl

theorem toString_cast_add_one (k : Nat) :
    toString ((k : Int) + 1) = toString (k + 1) := by
  have h : (k : Int) + 1 = Int.ofNat (k + 1) := by
    simp only [Int.ofNat_eq_coe]
    omega
  rw [h]
  rfl

theorem mem_navigation_rows (row nav : List Button)
    (h : row ∈ (if nav.length > 0 then [nav] else [])) : row = nav := by
  split at h
  · exact List.mem_singleton.mp h
  · simp at h

theorem navigationButtons_safe (k t : Nat) (hsafe : k ≤ 9007199254740991) :
    navigationButtons k t =
      (if k > 0 then
        [{ text := "← Previous", callback_data := "page:" ++ toString ((k : Int) - 1) }]
       else []) ++
      (if (k : Int) < (t : Int) - 1 then
        [{ text := "Next →", callback_data := "page:" ++ toString ((k : Int) + 1) }]
       else []) := by
  have h1 : k - 1 ≤ 2 ^ 53 := by
    have : (2 : Nat) ^ 53 = 9007199254740992 := by norm_num
    omega
  have h2 : k + 1 ≤ 2 ^ 53 := by
    have : (2 : Nat) ^ 53 = 9007199254740992 := by norm_num
    omega
  have e1 : jsNumberToString (toDouble (k - 1)) = toString (k - 1) := by
    rw [toDouble_of_le _ h1]
    unfold jsNumberToString
    rw [if_pos h1]
  have e2 : jsNumberToString (toDouble (k + 1)) = toString (k + 1) := by
    rw [toDouble_of_le _ h2]
    unfold jsNumberToString
    rw [if_pos h2]
  unfold navigationButtons
  rw [e1, e2, toString_cast_add_one]
  by_cases hk : k > 0
  · rw [toString_cast_sub_one k hk]
  · simp only [hk, if_false]

/-- C3, as stated, fails for a page index above `2^53`, where `currentPage - 1`
is no longer exact: at page index 9007199254740994 the previous button targets
page 9007199254740992, and no button of the keyboard targets page
9007199254740993, although `k > 0`. -/
theorem paginateChains_navigation_counterexample :
    paginateChains [] ["a"] 9007199254740994 7 3 =
      [[⟨"← Previous", "page:9007199254740992"⟩]] ∧
    ¬ ∃ row ∈ paginateChains [] ["a"] 9007199254740994 7 3,
        (⟨"← Previous", "page:" ++ toString (((9007199254740994 : Nat) : Int) - 1)⟩ : Button) ∈
          row := by
  decide

/-- C3, amended: for a page index `k` of at most `2^53 - 1` (9007199254740991)
and `totalPages = ceil(len(chains) / p)`, the keyboard of `paginateChains` is
the chain rows followed by the navigation rows `nav`, where `nav` is one row
holding the previous button (targeting page `k-1`) exactly when `k > 0` and the
next button (targeting page `k+1`) exactly when `k < totalPages - 1`, in that
order, and `nav` is empty when neither holds; the keyboard contains the previous
button iff `k > 0` and the next button iff `k < totalPages - 1`. -/
theorem paginateChains_navigation (st : Store) (chains : List String)
    (k u p : Nat) (hp : 0 < p) (hsafe : k ≤ 9007199254740991) :
    ∃ rows nav : Keyboard,
      paginateChains st chains k u p = rows ++ nav ∧
      (∀ row ∈ rows, ∀ b ∈ row, jsStartsWith b.callback_data "select_chain:" = true) ∧
      (0 < k ∧ (k : Int) < ⌈((chains.length : ℚ) / (p : ℚ))⌉ - 1 →
        nav = [[⟨"← Previous", "page:" ++ toString ((k : Int) - 1)⟩,
                ⟨"Next →", "page:" ++ toString ((k : Int) + 1)⟩]]) ∧
      (0 < k ∧ ¬ (k : Int) < ⌈((chains.length : ℚ) / (p : ℚ))⌉ - 1 →
        nav = [[⟨"← Previous", "page:" ++ toString ((k : Int) - 1)⟩]]) ∧
      (¬ 0 < k ∧ (k : Int) < ⌈((chains.length : ℚ) / (p : ℚ))⌉ - 1 →
        nav = [[⟨"Next →", "page:" ++ toString ((k : Int) + 1)⟩]]) ∧
      (¬ 0 < k ∧ ¬ (k : Int) < ⌈((chains.length : ℚ) / (p : ℚ))⌉ - 1 → nav = []) ∧
      ((∃ row ∈ paginateChains st chains k u p,
          (⟨"← Previous", "page:" ++ toString ((k : Int) - 1)⟩ : Button) ∈ row) ↔ 0 < k) ∧
      ((∃ row ∈ paginateChains st chains k u p,
          (⟨"Next →", "page:" ++ toString ((k : Int) + 1)⟩ : Button) ∈ row) ↔
        (k : Int) < ⌈((chains.length : ℚ) / (p : ℚ))⌉ - 1) := by
  rw [← totalPages_eq_ceil chains.length p hp]
  have hnav := navigationButtons_safe k (totalPages chains.length p) hsafe
  refine ⟨_, _, paginateChains_eq st chains k u p, ?_, ?_, ?_, ?_, ?_, ?_, ?_⟩
  · intro row hrow b hb
    have hmem := mem_chunks3_row _ row b hrow hb
    obtain ⟨c, _, rfl⟩ := List.mem_map.mp hmem
    exact startsWith_select_of_select c
  · rintro ⟨hk, hn⟩
    rw [hnav]
    simp [hk, hn]
  · rintro ⟨hk, hn⟩
    rw [hnav]
    simp [hk, hn]
  · rintro ⟨hk, hn⟩
    rw [hnav]
    simp [hk, hn]
  · rintro ⟨hk, hn⟩
    rw [hnav]
    simp [hk, hn]
  · rw [paginateChains_eq]
    constructor
    · rintro ⟨row, hrow, hb⟩
      rcases List.mem_append.mp hrow with h | h
      · exact absurd ⟨row, h, hb⟩ (page_button_not_in_chain_rows _ _ _ _)
      · have hrow_eq := mem_navigation_rows _ _ h
        rw [hrow_eq, hnav] at hb
        rcases List.mem_append.mp hb with h1 | h1
        · by_cases hk : k > 0
          · exact hk
          · rw [if_neg hk] at h1
            simp at h1
        · split at h1
          · simp only [List.mem_singleton] at h1
            exact absurd h1 (previous_ne_next _ _)
          · simp at h1
    · intro hk
      refine ⟨navigationButtons k (totalPages chains.length p), List.mem_append_right _ ?_, ?_⟩
      · have hlen : (navigationButtons k (totalPages chains.length p)).length > 0 := by
          rw [hnav]
          simp [hk]
        rw [if_pos hlen]
        exact List.mem_singleton.mpr rfl
      · rw [hnav]
        simp [hk]
  · rw [paginateChains_eq]
    constructor
    · rintro ⟨row, hrow, hb⟩
      rcases List.mem_append.mp hrow with h | h
      · exact absurd ⟨row, h, hb⟩ (page_button_not_in_chain_rows _ _ _ _)
      · have hrow_eq := mem_navigation_rows _ _ h
        rw [hrow_eq, hnav] at hb
        rcases List.mem_append.mp hb with h1 | h1
        · split at h1
          · simp only [List.mem_singleton] at h1
            exact absurd h1.symm (previous_ne_next _ _)
          · simp at h1
        · by_cases hn : (k : Int) < ((totalPages chains.length p : Nat) : Int) - 1
          · exact hn
          · rw [if_neg hn] at h1
            simp at h1
    · intro hn
      refine ⟨navigationButtons k (totalPages chains.length p), List.mem_append_right _ ?_, ?_⟩
      · have hlen : (navigationButtons k (totalPages chains.length p)).length > 0 := by
          rw [hnav]
          simp only [hn, if_true]
          split <;> simp
        rw [if_pos hlen]
        exact List.mem_singleton.mpr rfl
      · rw [hnav]
        simp [hn]

theorem paginateChains_navigation_witness :
    (0 < 3 ∧ 1 ≤ 9007199254740991) ∧
    ∃ rows nav : Keyboard,
      paginateChains [] ["a", "b", "c", "d", "e", "f", "g"] 1 7 3 = rows ++ nav ∧
      (∀ row ∈ rows, ∀ b ∈ row, jsStartsWith b.callback_data "select_chain:" = true) ∧
      (0 < 1 ∧ ((1 : Nat) : Int) <
          ⌈(((["a", "b", "c", "d", "e", "f", "g"] : List String).length : ℚ) /
            ((3 : Nat) : ℚ))⌉ - 1 →
        nav = [[⟨"← Previous", "page:" ++ toString (((1 : Nat) : Int) - 1)⟩,
                ⟨"Next →", "page:" ++ toString (((1 : Nat) : Int) + 1)⟩]]) ∧
      (0 < 1 ∧ ¬ ((1 : Nat) : Int) <
          ⌈(((["a", "b", "c", "d", "e", "f", "g"] : List String).length : ℚ) /
            ((3 : Nat) : ℚ))⌉ - 1 →
        nav = [[⟨"← Previous", "page:" ++ toString (((1 : Nat) : Int) - 1)⟩]]) ∧
      (¬ 0 < 1 ∧ ((1 : Nat) : Int) <
          ⌈(((["a", "b", "c", "d", "e", "f", "g"] : List String).length : ℚ) /
            ((3 : Nat) : ℚ))⌉ - 1 →
        nav = [[⟨"Next →", "page:" ++ toString (((1 : Nat) : Int) + 1)⟩]]) ∧
      (¬ 0 < 1 ∧ ¬ ((1 : Nat) : Int) <
          ⌈(((["a", "b", "c", "d", "e", "f", "g"] : List String).length : ℚ) /
            ((3 : Nat) : ℚ))⌉ - 1 → nav = []) ∧
      ((∃ row ∈ paginateChains [] ["a", "b", "c", "d", "e", "f", "g"] 1 7 3,
          (⟨"← Previous", "page:" ++ toString (((1 : Nat) : Int) - 1)⟩ : Button) ∈ row) ↔
        0 < 1) ∧
      ((∃ row ∈ paginateChains [] ["a", "b", "c", "d", "e", "f", "g"] 1 7 3,
          (⟨"Next →", "page:" ++ toString (((1 : Nat) : Int) + 1)⟩ : Button) ∈ row) ↔
        ((1 : Nat) : Int) <
          ⌈(((["a", "b", "c", "d", "e", "f", "g"] : List String).length : ℚ) /
            ((3 : Nat) : ℚ))⌉ - 1) :=
  ⟨⟨by decide, by decide⟩,
    paginateChains_navigation [] ["a", "b", "c", "d", "e", "f", "g"] 1 7 3 (by decide)
      (by decide)⟩

/-! ## The session store: update and sweep -/

theorem updateUserLastAction_get_self (st : Store) (u : UserId) (d : Session) (now : Int) :
    Store.get (updateUserLastAction st u (some d) now) u =
      some { chain := d.chain, messageId := d.messageId, chatId := d.chatId,
             timestamp := some now } := by
  simp [updateUserLastAction, get_set_self]

theorem updateUserLastAction_get_null (st : Store) (u : UserId) (now : Int) :
    Store.get (updateUserLastAction st u none now) u = none := by
  simp [updateUserLastAction, get_delete_self]

theorem updateUserLastAction_get_other (st : Store) (u w : UserId) (data : Option Session)
    (now : Int) (h : w ≠ u) :
    Store.get (updateUserLastAction st u data now) w = Store.get st w := by
  cases data with
  | none => simp [updateUserLastAction, get_delete_ne _ _ _ h]
  | some d => simp [updateUserLastAction, get_set_ne _ _ _ _ h]

/-- C4, evaluated at a failing input: user 7 has the session
`{chain: 'acme', messageId: 11, chatId: 20}` and `updateUserLastAction` is called
with the patch `{messageId: 12, chatId: 20}` at time 2000.  The stored session
is the patch plus the timestamp: the field `chain`, which the patch does not
name, is gone instead of keeping its previous value. -/
theorem updateUserLastAction_drops_unnamed_fields :
    updateUserLastAction [(7, ⟨some "acme", some 11, some 20, some 1000⟩)] 7
        (some ⟨none, some 12, some 20, none⟩) 2000 =
      [(7, ⟨none, some 12, some 20, some 2000⟩)] ∧
    (Store.get (updateUserLastAction [(7, ⟨some "acme", some 11, some 20, some 1000⟩)] 7
        (some ⟨none, some 12, some 20, none⟩) 2000) 7).bind Session.chain = none := by
  decide

theorem cleanupStep_get (now : Int) (st : Store) (k u : UserId) :
    Store.get (cleanupStep now st k) u =
      if k = u ∧ expiredAt now (Store.get st u) = true then none else Store.get st u := by
  unfold cleanupStep
  by_cases hk : k = u
  · subst hk
    cases hg : Store.get st k with
    | none => simp [expiredAt, hg]
    | some s =>
      by_cases he : sessionExpired now s = true
      · simp [expiredAt, he, get_delete_self]
      · simp [expiredAt, he, hg]
  · have hu : u ≠ k := fun e => hk e.symm
    cases hg : Store.get st k with
    | none => simp [hk]
    | some s =>
      by_cases he : sessionExpired now s = true
      · simp [he, hk, get_delete_ne _ _ _ hu]
      · simp [he, hk]

theorem foldl_cleanupStep_get (now : Int) (u : UserId) :
    ∀ (ks : List UserId) (st : Store),
      Store.get (ks.foldl (cleanupStep now) st) u =
        if u ∈ ks ∧ expiredAt now (Store.get st u) = true then none else Store.get st u
  | [], st => by simp
  | k :: ks, st => by
    rw [List.foldl_cons, foldl_cleanupStep_get now u ks, cleanupStep_get]
    by_cases hk : k = u
    · subst hk
      have hnone : expiredAt now none = false := rfl
      by_cases he : expiredAt now (Store.get st k) = true
      · simp [he, hnone]
      · simp [he]
    · have hu : ¬ u = k := fun e => hk e.symm
      simp [hk, hu]

theorem cleanupUserSessions_get (st : Store) (now : Int) (u : UserId) :
    Store.get (cleanupUserSessions st now) u =
      if expiredAt now (Store.get st u) = true then none else Store.get st u := by
  unfold cleanupUserSessions
  rw [foldl_cleanupStep_get]
  by_cases hm : u ∈ Store.keys st
  · simp [hm]
  · simp [hm, get_eq_none_of_not_mem_keys st u hm, expiredAt]

/-- C5: one run of `cleanupUserSessions` at time `now` deletes every session
whose timestamp lies more than 300000 ms before `now` and leaves the entry of
every other user as it was; a session idle for 301 seconds (301000 ms) is
deleted and a session idle for 100 seconds (100000 ms) survives. -/
theorem cleanupUserSessions_sweeps_idle (st : Store) (now : Int) :
    (∀ (u : UserId) (s : Session) (t : Int), Store.get st u = some s →
        s.timestamp = some t → now - t > 300000 →
        Store.get (cleanupUserSessions st now) u = none) ∧
    (∀ u : UserId,
        (¬ ∃ (s : Session) (t : Int), Store.get st u = some s ∧ s.timestamp = some t ∧
          now - t > 300000) →
        Store.get (cleanupUserSessions st now) u = Store.get st u) ∧
    (∀ (u : UserId) (s : Session) (t : Int), Store.get st u = some s →
        s.timestamp = some t → now - t = 301000 →
        Store.get (cleanupUserSessions st now) u = none) ∧
    (∀ (u : UserId) (s : Session) (t : Int), Store.get st u = some s →
        s.timestamp = some t → now - t = 100000 →
        Store.get (cleanupUserSessions st now) u = some s) := by
  refine ⟨?_, ?_, ?_, ?_⟩
  · intro u s t hs ht hd
    rw [cleanupUserSessions_get, hs]
    simp [expiredAt, sessionExpired, ht, hd]
  · intro u hno
    rw [cleanupUserSessions_get]
    cases hs : Store.get st u with
    | none => simp
    | some s =>
      cases ht : s.timestamp with
      | none => simp [expiredAt, sessionExpired, ht]
      | some t =>
        have : ¬ now - t > 300000 := fun hd => hno ⟨s, t, hs, ht, hd⟩
        simp [expiredAt, sessionExpired, ht, this]
  · intro u s t hs ht hd
    rw [cleanupUserSessions_get, hs]
    have : now - t > 300000 := by omega
    simp [expiredAt, sessionExpired, ht, this]
  · intro u s t hs ht hd
    rw [cleanupUserSessions_get, hs]
    have : ¬ now - t > 300000 := by omega
    simp [expiredAt, sessionExpired, ht, this]

theorem cleanupUserSessions_sweeps_idle_witness :
    Store.get (cleanupUserSessions
        [(1, ⟨some "acme", some 11, some 20, some 0⟩),
         (2, ⟨some "osmosis", some 12, some 21, some 201000⟩)] 301000) 1 = none ∧
    Store.get (cleanupUserSessions
        [(1, ⟨some "acme", some 11, some 20, some 0⟩),
         (2, ⟨some "osmosis", some 12, some 21, some 201000⟩)] 301000) 2 =
      some ⟨some "osmosis", some 12, some 21, some 201000⟩ :=
  ⟨(cleanupUserSessions_sweeps_idle
      [(1, ⟨some "acme", some 11, some 20, some 0⟩),
       (2, ⟨some "osmosis", some 12, some 21, some 201000⟩)] 301000).2.2.1
      1 ⟨some "acme", some 11, some 20, some 0⟩ 0 (by decide) rfl (by decide),
   (cleanupUserSessions_sweeps_idle
      [(1, ⟨some "acme", some 11, some 20, some 0⟩),
       (2, ⟨some "osmosis", some 12, some 21, some 201000⟩)] 301000).2.2.2
      2 ⟨some "osmosis", some 12, some 21, some 201000⟩ 201000 (by decide) rfl (by decide)⟩

/-! ## Selecting a chain -/

/-- C6, evaluated at a failing input: user 7 sends `select_chain:acme` from
message 11 of chat 20, the edit is rejected with `Bad Request: message to edit
not found`, and the fallback reply is message 12 of chat 20.  The session left
by the handler holds the new target but no selected chain, and a following
`chain_info` is answered with the no-chain notice. -/
theorem selectChain_fallback_drops_chain :
    Store.get (selectChainAction [] ⟨7, ⟨11, 20, "Select a chain:"⟩⟩ "acme"
        { now := 1000, later := 1001, catalog := .ok ["acme"],
          chainInfo := fun _ => "info", chainEndpoints := fun _ => "",
          chainPeerNodes := fun _ => "", chainBlockExplorers := fun _ => "",
          editError := some (some "Bad Request: message to edit not found"),
          sent := ⟨12, 20, "Select an action:"⟩ }).store 7 =
      some ⟨none, some 12, some 20, some 1001⟩ ∧
    (onCallbackQuery
        (selectChainAction [] ⟨7, ⟨11, 20, "Select a chain:"⟩⟩ "acme"
          { now := 1000, later := 1001, catalog := .ok ["acme"],
            chainInfo := fun _ => "info", chainEndpoints := fun _ => "",
            chainPeerNodes := fun _ => "", chainBlockExplorers := fun _ => "",
            editError := some (some "Bad Request: message to edit not found"),
            sent := ⟨12, 20, "Select an action:"⟩ }).store
        ⟨7, ⟨12, 20, "Select an action:"⟩⟩ "chain_info"
        { now := 2000, later := 2001, catalog := .ok ["acme"],
          chainInfo := fun _ => "info", chainEndpoints := fun _ => "",
          chainPeerNodes := fun _ => "", chainBlockExplorers := fun _ => "",
          editError := none, sent := ⟨13, 20, ""⟩ }).effects =
      [.reply "No chain selected. Please select a chain first." none] := by
  decide

theorem selectChainAction_session_of_edit_ok (st : Store) (ctx : CallbackCtx)
    (chain : String) (env : Env) (h : env.editError = none) :
    Store.get (selectChainAction st ctx chain env).store ctx.fromId =
      some ⟨some chain, some ctx.message.message_id, some ctx.message.chat_id,
        some env.now⟩ := by
  simp [selectChainAction, h, updateUserLastAction_get_self]

theorem pageAction_store (st : Store) (ctx : CallbackCtx) (digits : String) (env : Env) :
    (pageAction st ctx digits env).store = st := by
  unfold pageAction
  simp only []
  repeat' split
  all_goals rfl

/-! ## Changing the page -/

theorem string_ne_of_data_ne {a b : String} (h : a.data ≠ b.data) : a ≠ b :=
  fun e => h (congrArg String.data e)

theorem matchSelectChain_page (s : String) : matchSelectChain ("page:" ++ s) = none := by
  simp [matchSelectChain, startsWith_select_of_page]

theorem matchPage_page (digits : String) (hne : digits.data ≠ [])
    (hd : ∀ c ∈ digits.data, isDigit c = true) :
    matchPage ("page:" ++ digits) = some digits := by
  have h : ("page:" : String).data = ['p', 'a', 'g', 'e', ':'] := rfl
  have htw : digits.data.takeWhile isDigit = digits.data :=
    List.takeWhile_eq_self_iff.mpr hd
  simp [matchPage, String.data_append, h, matchPageChars, htw, hne]

theorem onCallbackQuery_page (st : Store) (ctx : CallbackCtx) (digits : String) (env : Env)
    (hne : digits.data ≠ []) (hd : ∀ c ∈ digits.data, isDigit c = true) :
    onCallbackQuery st ctx ("page:" ++ digits) env = pageAction st ctx digits env := by
  have h : ("page:" : String).data = ['p', 'a', 'g', 'e', ':'] := rfl
  have h1 : "page:" ++ digits ≠ "ibc_id" := by
    apply string_ne_of_data_ne
    rw [String.data_append, h]
    have : ("ibc_id" : String).data = ['i', 'b', 'c', '_', 'i', 'd'] := rfl
    rw [this]
    simp
  have h2 : "page:" ++ digits ≠ "pool_incentives" := by
    apply string_ne_of_data_ne
    rw [String.data_append, h]
    have : ("pool_incentives" : String).data =
        ['p', 'o', 'o', 'l', '_', 'i', 'n', 'c', 'e', 'n', 't', 'i', 'v', 'e', 's'] := rfl
    rw [this]
    simp
  unfold onCallbackQuery
  rw [matchSelectChain_page]
  simp only [h1, h2, if_false, matchPage_page digits hne hd]

/-- C7, as stated, fails at two inputs.  With an empty catalog (`totalPages`
is 0, so page 0 is out of range) the action `page:0` is answered with
`No chains available.`, not with the invalid-page notice.  The action `page:-1`
matches no registered trigger (the page trigger needs a digit after `page:`),
so no handler runs and nothing is replied. -/
theorem page_invalid_notice_counterexample :
    (onCallbackQuery [] ⟨7, ⟨11, 20, "Select a chain:"⟩⟩ "page:0"
        { now := 1000, later := 1001, catalog := .ok [],
          chainInfo := fun _ => "", chainEndpoints := fun _ => "",
          chainPeerNodes := fun _ => "", chainBlockExplorers := fun _ => "",
          editError := none, sent := ⟨12, 20, ""⟩ }).effects =
      [.reply "No chains available." none] ∧
    (onCallbackQuery [] ⟨7, ⟨11, 20, "Select a chain:"⟩⟩ "page:0"
        { now := 1000, later := 1001, catalog := .ok [],
          chainInfo := fun _ => "", chainEndpoints := fun _ => "",
          chainPeerNodes := fun _ => "", chainBlockExplorers := fun _ => "",
          editError := none, sent := ⟨12, 20, ""⟩ }).effects ≠
      [.reply "Invalid page number." none] ∧
    (onCallbackQuery [] ⟨7, ⟨11, 20, "Select a chain:"⟩⟩ "page:-1"
        { now := 1000, later := 1001, catalog := .ok ["acme"],
          chainInfo := fun _ => "", chainEndpoints := fun _ => "",
          chainPeerNodes := fun _ => "", chainBlockExplorers := fun _ => "",
          editError := none, sent := ⟨12, 20, ""⟩ }).effects = [] := by
  decide

/-- C7, amended: for every non-empty catalog with
`totalPages = ceil(len(catalog) / 18)` and every action `page:<n>` whose `n` is a
run of digits with `n >= totalPages`, the handler replies with the invalid-page
notice, issues no edit and leaves the session store as it was; for the empty
catalog every action `page:<n>` is answered with `No chains available.`, again
with no edit and no change of the store; the action `page:-1` reaches no handler
and changes nothing. -/
theorem page_out_of_range (st : Store) (ctx : CallbackCtx) (env : Env)
    (chains : List String) (digits : String) (hcat : env.catalog = .ok chains)
    (hne : digits.data ≠ []) (hd : ∀ c ∈ digits.data, isDigit c = true) :
    (chains ≠ [] → ⌈((chains.length : ℚ) / 18)⌉ ≤ ((parseInt digits.data : Nat) : Int) →
      onCallbackQuery st ctx ("page:" ++ digits) env =
        ⟨st, [.reply "Invalid page number." none], none⟩) ∧
    (chains = [] →
      onCallbackQuery st ctx ("page:" ++ digits) env =
        ⟨st, [.reply "No chains available." none], none⟩) ∧
    onCallbackQuery st ctx "page:-1" env = ⟨st, [], none⟩ := by
  refine ⟨?_, ?_, ?_⟩
  · intro hch hge
    have hceil := totalPages_eq_ceil chains.length 18 (by decide)
    have hcast : (((18 : Nat) : ℚ)) = 18 := by norm_num
    rw [hcast] at hceil
    rw [← hceil] at hge
    have hge2 : parseInt digits.data ≥ totalPages chains.length pageSize := by
      unfold pageSize
      exact_mod_cast hge
    have hlen : ¬ chains.length = 0 := by
      intro h0
      exact hch (List.length_eq_zero.mp h0)
    rw [onCallbackQuery_page st ctx digits env hne hd]
    unfold pageAction
    simp only [hcat, hlen, if_false]
    rw [if_pos (Or.inr hge2)]
  · intro hch
    subst hch
    rw [onCallbackQuery_page st ctx digits env hne hd]
    unfold pageAction
    simp [hcat]
  · have h1 : matchSelectChain "page:-1" = none := by decide
    have h2 : matchPage "page:-1" = none := by decide
    unfold onCallbackQuery
    rw [h1]
    simp only [h2]
    simp only [show ¬ ("page:-1" : String) = "ibc_id" by decide,
      show ¬ ("page:-1" : String) = "pool_incentives" by decide,
      show ¬ ("page:-1" : String) = "chain_info" by decide,
      show ¬ ("page:-1" : String) = "endpoints" by decide,
      show ¬ ("page:-1" : String) = "peer_nodes" by decide,
      show ¬ ("page:-1" : String) = "block_explorers" by decide, if_false]

theorem page_out_of_range_witness :
    onCallbackQuery [] ⟨7, ⟨11, 20, "Select a chain:"⟩⟩ ("page:" ++ "1")
        { now := 1000, later := 1001, catalog := .ok ["acme"],
          chainInfo := fun _ => "", chainEndpoints := fun _ => "",
          chainPeerNodes := fun _ => "", chainBlockExplorers := fun _ => "",
          editError := none, sent := ⟨12, 20, ""⟩ } =
      ⟨[], [.reply "Invalid page number." none], none⟩ :=
  (page_out_of_range [] ⟨7, ⟨11, 20, "Select a chain:"⟩⟩
      { now := 1000, later := 1001, catalog := .ok ["acme"],
        chainInfo := fun _ => "", chainEndpoints := fun _ => "",
        chainPeerNodes := fun _ => "", chainBlockExplorers := fun _ => "",
        editError := none, sent := ⟨12, 20, ""⟩ }
      ["acme"] "1" rfl (by decide) (by decide)).1 (by decide)
    (by
      have hp : parseInt ("1" : String).data = 1 := by decide
      rw [hp]
      exact Int.ceil_le.mpr (by norm_num))

/-! ## Category views without a selected chain -/

theorem chainSession_eq_none (st : Store) (u : UserId)
    (h : hasChain (Store.get st u) = none) : chainSession st u = none := by
  unfold chainSession
  cases hg : Store.get st u with
  | none => rfl
  | some s =>
    rw [hg] at h
    simp [h]

/-- C8: for every user whose session is absent or holds no selected chain, each
of the actions `chain_info`, `peer_nodes`, `endpoints`, `block_explorers`,
`ibc_id` and `pool_incentives` is answered with the reply
`No chain selected. Please select a chain first.` and nothing else (so no
message edit), and the session store is left as it was. -/
theorem category_without_chain (st : Store) (ctx : CallbackCtx) (env : Env)
    (h : hasChain (Store.get st ctx.fromId) = none) :
    ∀ data ∈ ["chain_info", "peer_nodes", "endpoints", "block_explorers", "ibc_id",
        "pool_incentives"],
      onCallbackQuery st ctx data env =
        ⟨st, [.reply "No chain selected. Please select a chain first." none], none⟩ := by
  have hs := chainSession_eq_none st ctx.fromId h
  have m1 : matchSelectChain "chain_info" = none := by decide
  have m2 : matchSelectChain "peer_nodes" = none := by decide
  have m3 : matchSelectChain "endpoints" = none := by decide
  have m4 : matchSelectChain "block_explorers" = none := by decide
  have m5 : matchSelectChain "ibc_id" = none := by decide
  have m6 : matchSelectChain "pool_incentives" = none := by decide
  have p1 : matchPage "chain_info" = none := by decide
  have p2 : matchPage "peer_nodes" = none := by decide
  have p3 : matchPage "endpoints" = none := by decide
  have p4 : matchPage "block_explorers" = none := by decide
  intro data hdata
  simp only [List.mem_cons, List.mem_singleton, List.not_mem_nil, or_false] at hdata
  rcases hdata with rfl | rfl | rfl | rfl | rfl | rfl
  · unfold onCallbackQuery
    rw [m1]
    simp only [p1, show ¬ ("chain_info" : String) = "ibc_id" by decide,
      show ¬ ("chain_info" : String) = "pool_incentives" by decide, if_false, if_true]
    simp [chainInfoAction, h, noChainNotice]
  · unfold onCallbackQuery
    rw [m2]
    simp only [p2, show ¬ ("peer_nodes" : String) = "ibc_id" by decide,
      show ¬ ("peer_nodes" : String) = "pool_incentives" by decide,
      show ¬ ("peer_nodes" : String) = "chain_info" by decide,
      show ¬ ("peer_nodes" : String) = "endpoints" by decide, if_false, if_true]
    simp [peerNodesAction, hs, noChainNotice]
  · unfold onCallbackQuery
    rw [m3]
    simp only [p3, show ¬ ("endpoints" : String) = "ibc_id" by decide,
      show ¬ ("endpoints" : String) = "pool_incentives" by decide,
      show ¬ ("endpoints" : String) = "chain_info" by decide, if_false, if_true]
    simp [endpointsAction, hs, noChainNotice]
  · unfold onCallbackQuery
    rw [m4]
    simp only [p4, show ¬ ("block_explorers" : String) = "ibc_id" by decide,
      show ¬ ("block_explorers" : String) = "pool_incentives" by decide,
      show ¬ ("block_explorers" : String) = "chain_info" by decide,
      show ¬ ("block_explorers" : String) = "endpoints" by decide,
      show ¬ ("block_explorers" : String) = "peer_nodes" by decide, if_false, if_true]
    simp [blockExplorersAction, hs, noChainNotice]
  · unfold onCallbackQuery
    rw [m5]
    simp [ibcIdAction, h, noChainNotice]
  · unfold onCallbackQuery
    rw [m6]
    simp only [show ¬ ("pool_incentives" : String) = "ibc_id" by decide, if_false, if_true]
    simp [poolIncentivesAction, h, noChainNotice]

theorem category_without_chain_witness :
    hasChain (Store.get [(7, ⟨none, some 11, some 20, some 1000⟩)] 7) = none ∧
    onCallbackQuery [(7, ⟨none, some 11, some 20, some 1000⟩)]
        ⟨7, ⟨11, 20, "Select an action:"⟩⟩ "endpoints"
        { now := 2000, later := 2001, catalog := .ok ["acme"],
          chainInfo := fun _ => "", chainEndpoints := fun _ => "",
          chainPeerNodes := fun _ => "", chainBlockExplorers := fun _ => "",
          editError := none, sent := ⟨12, 20, ""⟩ } =
      ⟨[(7, ⟨none, some 11, some 20, some 1000⟩)],
        [.reply "No chain selected. Please select a chain first." none], none⟩ :=
  ⟨by decide,
    category_without_chain [(7, ⟨none, some 11, some 20, some 1000⟩)]
      ⟨7, ⟨11, 20, "Select an action:"⟩⟩
      { now := 2000, later := 2001, catalog := .ok ["acme"],
        chainInfo := fun _ => "", chainEndpoints := fun _ => "",
        chainPeerNodes := fun _ => "", chainBlockExplorers := fun _ => "",
        editError := none, sent := ⟨12, 20, ""⟩ }
      (by decide) "endpoints" (by decide)⟩

/-! ## Chain information -/

/-- C9: for a user with a selected chain, the `chain_info` handler issues one
edit carrying the freshly formatted text when that text differs from the text of
the displayed message, and when the two are identical it issues no edit and
answers the callback with the up-to-date acknowledgement; so two requests in a
row over unchanged chain data, the second arriving on the message as the first
(successful) edit left it, make exactly one edit call. -/
theorem chainInfo_edits_once (st : Store) (ctx : CallbackCtx) (env : Env) (chain : String)
    (h : hasChain (Store.get st ctx.fromId) = some chain) :
    (env.chainInfo chain ≠ ctx.message.text →
      (chainInfoAction st ctx env).effects =
        [.editMessageText (some ctx.message.chat_id) (some ctx.message.message_id)
          (env.chainInfo chain) none] ∧
      (chainInfoAction st ctx env).store = st) ∧
    (env.chainInfo chain = ctx.message.text →
      chainInfoAction st ctx env =
        ⟨st, [.answerCbQuery "The chain information is already up to date."], none⟩) ∧
    (env.chainInfo chain ≠ ctx.message.text → env.editError = none →
      ((chainInfoAction st ctx env).effects ++
        (chainInfoAction (chainInfoAction st ctx env).store
          ⟨ctx.fromId, ⟨ctx.message.message_id, ctx.message.chat_id, env.chainInfo chain⟩⟩
          env).effects).filter Effect.isEdit =
        [.editMessageText (some ctx.message.chat_id) (some ctx.message.message_id)
          (env.chainInfo chain) none]) := by
  refine ⟨?_, ?_, ?_⟩
  · intro hne
    unfold chainInfoAction
    simp only [h, hne, if_false]
    constructor <;> (split <;> rfl)
  · intro heq
    unfold chainInfoAction
    simp only [h, heq, if_true]
  · intro hne he
    have h1 : chainInfoAction st ctx env =
        ⟨st, [.editMessageText (some ctx.message.chat_id) (some ctx.message.message_id)
          (env.chainInfo chain) none], none⟩ := by
      unfold chainInfoAction
      simp only [h, hne, if_false, he]
    have h2 : chainInfoAction st
        ⟨ctx.fromId, ⟨ctx.message.message_id, ctx.message.chat_id, env.chainInfo chain⟩⟩ env =
        ⟨st, [.answerCbQuery "The chain information is already up to date."], none⟩ := by
      unfold chainInfoAction
      simp only [h, if_true]
    rw [h1]
    simp only [h2]
    simp [Effect.isEdit]

theorem chainInfo_edits_once_witness :
    hasChain (Store.get [(7, ⟨some "acme", some 11, some 20, some 1000⟩)] 7) = some "acme" ∧
    ((chainInfoAction [(7, ⟨some "acme", some 11, some 20, some 1000⟩)]
          ⟨7, ⟨11, 20, "Select an action:"⟩⟩
          { now := 2000, later := 2001, catalog := .ok ["acme"],
            chainInfo := fun c => "Chain ID: " ++ c, chainEndpoints := fun _ => "",
            chainPeerNodes := fun _ => "", chainBlockExplorers := fun _ => "",
            editError := none, sent := ⟨12, 20, ""⟩ }).effects ++
        (chainInfoAction
          (chainInfoAction [(7, ⟨some "acme", some 11, some 20, some 1000⟩)]
            ⟨7, ⟨11, 20, "Select an action:"⟩⟩
            { now := 2000, later := 2001, catalog := .ok ["acme"],
              chainInfo := fun c => "Chain ID: " ++ c, chainEndpoints := fun _ => "",
              chainPeerNodes := fun _ => "", chainBlockExplorers := fun _ => "",
              editError := none, sent := ⟨12, 20, ""⟩ }).store
          ⟨7, ⟨11, 20, "Chain ID: " ++ "acme"⟩⟩
          { now := 2000, later := 2001, catalog := .ok ["acme"],
            chainInfo := fun c => "Chain ID: " ++ c, chainEndpoints := fun _ => "",
            chainPeerNodes := fun _ => "", chainBlockExplorers := fun _ => "",
            editError := none, sent := ⟨12, 20, ""⟩ }).effects).filter Effect.isEdit =
      [.editMessageText (some 20) (some 11) ("Chain ID: " ++ "acme") none] :=
  ⟨by decide,
    (chainInfo_edits_once [(7, ⟨some "acme", some 11, some 20, some 1000⟩)]
      ⟨7, ⟨11, 20, "Select an action:"⟩⟩
      { now := 2000, later := 2001, catalog := .ok ["acme"],
        chainInfo := fun c => "Chain ID: " ++ c, chainEndpoints := fun _ => "",
        chainPeerNodes := fun _ => "", chainBlockExplorers := fun _ => "",
        editError := none, sent := ⟨12, 20, ""⟩ }
      "acme" (by decide)).2.2 (by decide) rfl⟩

/-! ## Free text -/

theorem removeFirstChars_leading (pat rest : List Char) (hne : pat ≠ []) :
    removeFirstChars pat (pat ++ rest) = rest := by
  cases pat with
  | nil => exact absurd rfl hne
  | cons c cs =>
    have hp : (c :: cs).isPrefixOf (c :: (cs ++ rest)) = true := by
      rw [List.isPrefixOf_iff_prefix]
      exact ⟨rest, rfl⟩
    show removeFirstChars (c :: cs) (c :: (cs ++ rest)) = rest
    rw [removeFirstChars, if_pos hp]
    exact List.drop_left (c :: cs) rest

theorem data_of_startsWith (t p : String) (h : jsStartsWith t p = true) :
    t.data = p.data ++ t.data.drop p.data.length := by
  unfold jsStartsWith at h
  rw [List.isPrefixOf_iff_prefix] at h
  obtain ⟨rest, hr⟩ := h
  rw [← hr]
  simp

theorem httpsGet_store (st : Store) (url : String) : (httpsGet st url).store = st := by
  unfold httpsGet
  split <;> rfl

theorem handlePoolIncentives_throws (st : Store) (poolId : String) :
    handlePoolIncentives st poolId =
      ⟨st, [],
        some "TypeError [ERR_INVALID_PROTOCOL]: Protocol \"http:\" not supported. Expected \"https:\""⟩ := by
  have h1 : ("http://jasbanza.dedicated.co.za:7000/pool/" : String).data =
      'h' :: 't' :: 't' :: 'p' :: ':' ::
        ("//jasbanza.dedicated.co.za:7000/pool/" : String).data := rfl
  have h2 : ("https:" : String).data = ['h', 't', 't', 'p', 's', ':'] := rfl
  have hs : jsStartsWith ("http://jasbanza.dedicated.co.za:7000/pool/" ++ poolId) "https:" =
      false := by
    unfold jsStartsWith
    rw [String.data_append, h1, h2]
    simp [List.isPrefixOf]
  unfold handlePoolIncentives httpsGet
  simp [hs]

theorem textHandler_pool (st : Store) (ctx : TextCtx) (env : Env)
    (hpool : jsStartsWith (jsTrim ctx.text) "pool/" = true) :
    jsTrim ctx.text = "pool/" ++ String.mk ((jsTrim ctx.text).data.drop 5) ∧
    textHandler st ctx env =
      handlePoolIncentives st (String.mk ((jsTrim ctx.text).data.drop 5)) := by
  have hp : ("pool/" : String).data = ['p', 'o', 'o', 'l', '/'] := rfl
  have hdata := data_of_startsWith _ _ hpool
  rw [hp] at hdata
  simp only [List.length_cons, List.length_nil] at hdata
  have hstart : jsTrim ctx.text ≠ "/start" := by
    apply string_ne_of_data_ne
    rw [hdata]
    have : ("/start" : String).data = ['/', 's', 't', 'a', 'r', 't'] := rfl
    rw [this]
    simp
  have hibc : jsStartsWith (jsTrim ctx.text) "ibc/" = false := by
    unfold jsStartsWith
    rw [hdata]
    have : ("ibc/" : String).data = ['i', 'b', 'c', '/'] := rfl
    rw [this]
    simp [List.isPrefixOf]
  have hrem : jsRemoveFirst (jsTrim ctx.text) "pool/" =
      String.mk ((jsTrim ctx.text).data.drop 5) := by
    unfold jsRemoveFirst
    rw [hp]
    conv_lhs => rw [hdata]
    rw [removeFirstChars_leading _ _ (by simp)]
  constructor
  · apply String.ext
    rw [String.data_append, hp]
    exact hdata
  · unfold textHandler
    simp only [hstart, hibc, hpool, if_false, if_true, hrem]
    simp

theorem textHandler_unrecognised (st : Store) (ctx : TextCtx) (env : Env)
    (hstart : jsTrim ctx.text ≠ "/start")
    (hibc : jsStartsWith (jsTrim ctx.text) "ibc/" = false)
    (hpool : jsStartsWith (jsTrim ctx.text) "pool/" = false) :
    textHandler st ctx env = ⟨st, [], none⟩ := by
  unfold textHandler
  simp only [hstart, hibc, hpool, if_false]
  simp

/-- C10, evaluated at a failing input: user 7 sends the text `pool/7` (no
command entity).  The text handler strips `pool/` and calls
`handlePoolIncentives` with pool id `7`, which hands the URL
`http://jasbanza.dedicated.co.za:7000/pool/7` to `https.get`; that call throws
`ERR_INVALID_PROTOCOL`, so no request is issued, nothing is replied, and the
handler fails. -/
theorem pool_text_fetch_throws :
    jsRemoveFirst (jsTrim "pool/7") "pool/" = "7" ∧
    onMessage [(7, ⟨some "osmosis", some 11, some 20, some 1000⟩)] ⟨7, "pool/7", none⟩
        { now := 2000, later := 2001, catalog := .ok ["osmosis"],
          chainInfo := fun _ => "", chainEndpoints := fun _ => "",
          chainPeerNodes := fun _ => "", chainBlockExplorers := fun _ => "",
          editError := none, sent := ⟨12, 20, ""⟩ } =
      ⟨[(7, ⟨some "osmosis", some 11, some 20, some 1000⟩)], [],
        some "TypeError [ERR_INVALID_PROTOCOL]: Protocol \"http:\" not supported. Expected \"https:\""⟩ := by
  decide

/-! ## The denom-trace lookup -/

theorem textHandler_ibc_with_chain (st : Store) (ctx : TextCtx) (env : Env) (chain : String)
    (hstart : jsTrim ctx.text ≠ "/start")
    (hibc : jsStartsWith (jsTrim ctx.text) "ibc/" = true)
    (hchain : hasChain (Store.get st ctx.fromId) = some chain) :
    textHandler st ctx env =
      ⟨st, [.reply "Error: REST address not found for the selected chain." none], none⟩ := by
  unfold textHandler
  simp only [hstart, hibc, hchain, if_false, if_true, restAddressOf]
  split <;> simp_all

/-- C11, evaluated at a failing input: user 7 has selected `osmosis`, whose
chain information carries the REST address `https://rest.osmosis.zone`, and
sends the text `ibc/27394FB0`.  The handler reads `restAddress` off the string
returned by `chainInfo`, finds nothing, and answers with the failure notice; no
denom-trace query is issued. -/
theorem ibc_text_never_queries :
    textHandler [(7, ⟨some "osmosis", some 11, some 20, some 1000⟩)] ⟨7, "ibc/27394FB0"⟩
        { now := 2000, later := 2001, catalog := .ok ["osmosis"],
          chainInfo := fun _ =>
            "Chain ID: `osmosis-1`\nChain Name: `osmosis`\nRPC: `https://rpc.osmosis.zone`\n" ++
            "REST: `https://rest.osmosis.zone`\nAddress Prefix: `osmo`\n" ++
            "Base Denom: `uosmo`\nCointype: `118`\nDecimals: `6`\n" ++
            "Block Explorer: `https://www.mintscan.io/osmosis`",
          chainEndpoints := fun _ => "", chainPeerNodes := fun _ => "",
          chainBlockExplorers := fun _ => "", editError := none, sent := ⟨12, 20, ""⟩ } =
      ⟨[(7, ⟨some "osmosis", some 11, some 20, some 1000⟩)],
        [.reply "Error: REST address not found for the selected chain." none], none⟩ := by
  decide

/-! ## The pool prompt -/

/-- C13, evaluated at a failing input: user 7 has selected `osmosis` and sends
the action `pool_incentives`.  The handler sends the prompt and then fails with
a `ReferenceError` on the undeclared `expectedAction`; nothing is recorded for
the user, and the store is as before. -/
theorem pool_incentives_throws :
    onCallbackQuery [(7, ⟨some "osmosis", some 11, some 20, some 1000⟩)]
        ⟨7, ⟨11, 20, "Select an action:"⟩⟩ "pool_incentives"
        { now := 2000, later := 2001, catalog := .ok ["osmosis"],
          chainInfo := fun _ => "", chainEndpoints := fun _ => "",
          chainPeerNodes := fun _ => "", chainBlockExplorers := fun _ => "",
          editError := none, sent := ⟨12, 20, ""⟩ } =
      ⟨[(7, ⟨some "osmosis", some 11, some 20, some 1000⟩)],
        [.reply "Enter pool_id for osmosis (AMM pool-type only):" none],
        some "ReferenceError: expectedAction is not defined"⟩ := by
  decide

/-! ## Free text `/start` -/

/-- C12, evaluated at a failing input: user 7 has selected `acme` (message 11
of chat 20) and a text message `/start` without a command entity reaches the
text handler.  The handler leaves the session in the store, selected chain and
editable target included, and replies with `acme` highlighted.  The same text
delivered as a command runs `startInteraction`, which deletes the session and
replies with no chain highlighted. -/
theorem text_start_keeps_session :
    onMessage [(7, ⟨some "acme", some 11, some 20, some 1000⟩)] ⟨7, "/start", none⟩
        { now := 2000, later := 2001, catalog := .ok ["acme", "osmosis"],
          chainInfo := fun _ => "", chainEndpoints := fun _ => "",
          chainPeerNodes := fun _ => "", chainBlockExplorers := fun _ => "",
          editError := none, sent := ⟨12, 20, ""⟩ } =
      ⟨[(7, ⟨some "acme", some 11, some 20, some 1000⟩)],
        [.reply "Select a chain:"
          (some [[⟨"🔴 acme", "select_chain:acme"⟩, ⟨"osmosis", "select_chain:osmosis"⟩]])],
        none⟩ ∧
    onMessage [(7, ⟨some "acme", some 11, some 20, some 1000⟩)] ⟨7, "/start", some "start"⟩
        { now := 2000, later := 2001, catalog := .ok ["acme", "osmosis"],
          chainInfo := fun _ => "", chainEndpoints := fun _ => "",
          chainPeerNodes := fun _ => "", chainBlockExplorers := fun _ => "",
          editError := none, sent := ⟨12, 20, ""⟩ } =
      ⟨[],
        [.reply "Select a chain:"
          (some [[⟨"acme", "select_chain:acme"⟩, ⟨"osmosis", "select_chain:osmosis"⟩]])],
        none⟩ := by
  decide

/-! ## An unreadable data root -/

/-- C14, as stated, fails when the data root cannot be read: `getChainList`
passes the error of `readdirSync` on to its caller instead of returning an empty
sequence.  `startInteraction` then fails with that error after clearing the
session and sends nothing, and the page action answers with the generic error
notice, not with `No chains available.`. -/
theorem getChainList_raises_counterexample :
    getChainList (fun _ _ => 0) (.error "ENOENT: no such file or directory, scandir") =
      .error "ENOENT: no such file or directory, scandir" ∧
    startInteraction [(7, ⟨some "acme", some 11, some 20, some 1000⟩)] 7
        { now := 2000, later := 2001,
          catalog := getChainList (fun _ _ => 0)
            (.error "ENOENT: no such file or directory, scandir"),
          chainInfo := fun _ => "", chainEndpoints := fun _ => "",
          chainPeerNodes := fun _ => "", chainBlockExplorers := fun _ => "",
          editError := none, sent := ⟨12, 20, ""⟩ } =
      ⟨[], [], some "ENOENT: no such file or directory, scandir"⟩ ∧
    onCallbackQuery [] ⟨7, ⟨11, 20, "Select a chain:"⟩⟩ "page:0"
        { now := 2000, later := 2001,
          catalog := getChainList (fun _ _ => 0)
            (.error "ENOENT: no such file or directory, scandir"),
          chainInfo := fun _ => "", chainEndpoints := fun _ => "",
          chainPeerNodes := fun _ => "", chainBlockExplorers := fun _ => "",
          editError := none, sent := ⟨12, 20, ""⟩ } =
      ⟨[], [.reply "An error occurred while processing your request." none], none⟩ := by
  refine ⟨rfl, ?_, ?_⟩ <;> decide

theorem startInteraction_read_error (st : Store) (userId : UserId) (env : Env) (e : String)
    (hcat : env.catalog = .error e) :
    startInteraction st userId env = ⟨Store.delete st userId, [], some e⟩ := by
  unfold startInteraction resetUserSession updateUserLastAction
  simp only [hcat]

/-- C14, amended: when the data root cannot be read, `getChainList` raises the
read error to its caller; the page action catches it and replies with the notice
`An error occurred while processing your request.`, with no edit and no change
of the store.  When the data root can be read, `getChainList` returns a
sequence; when no entry of the root is a directory whose name starts with a
letter or digit, that sequence is empty and the page action replies
`No chains available.`. -/
theorem getChainList_read_error (localeCompare : String → String → Int) (st : Store)
    (ctx : CallbackCtx) (digits : String) (env : Env) :
    (∀ e : String, getChainList localeCompare (.error e) = .error e) ∧
    (∀ e : String, env.catalog = getChainList localeCompare (.error e) →
      pageAction st ctx digits env =
        ⟨st, [.reply "An error occurred while processing your request." none], none⟩) ∧
    (∀ entries : List Dirent, ∃ chains : List String,
      getChainList localeCompare (.ok entries) = .ok chains) ∧
    (∀ entries : List Dirent,
      (∀ d ∈ entries, (d.isDirectory && startsAlphanumeric d.name) = false) →
      getChainList localeCompare (.ok entries) = .ok [] ∧
      (env.catalog = getChainList localeCompare (.ok entries) →
        pageAction st ctx digits env = ⟨st, [.reply "No chains available." none], none⟩)) := by
  refine ⟨fun e => rfl, ?_, fun entries => ⟨_, rfl⟩, ?_⟩
  · intro e hcat
    have hc : env.catalog = .error e := hcat
    unfold pageAction
    simp only [hc]
  · intro entries hall
    have hfilter : entries.filter
        (fun dirent => dirent.isDirectory && startsAlphanumeric dirent.name) = [] :=
      List.filter_eq_nil_iff.mpr (fun d hd => by simp [hall d hd])
    have hget : getChainList localeCompare (.ok entries) = .ok [] := by
      unfold getChainList
      simp only [hfilter, List.map_nil, List.insertionSort]
    refine ⟨hget, ?_⟩
    intro hcat
    rw [hget] at hcat
    unfold pageAction
    simp [hcat]

theorem getChainList_read_error_witness :
    pageAction [(7, ⟨some "acme", some 11, some 20, some 1000⟩)]
        ⟨7, ⟨11, 20, "Select a chain:"⟩⟩ "0"
        { now := 2000, later := 2001, catalog := .error "EACCES: permission denied, scandir",
          chainInfo := fun _ => "", chainEndpoints := fun _ => "",
          chainPeerNodes := fun _ => "", chainBlockExplorers := fun _ => "",
          editError := none, sent := ⟨12, 20, ""⟩ } =
      ⟨[(7, ⟨some "acme", some 11, some 20, some 1000⟩)],
        [.reply "An error occurred while processing your request." none], none⟩ ∧
    (getChainList (fun _ _ => 0) (.ok [⟨".git", true⟩, ⟨"README.md", false⟩]) = .ok [] ∧
      ((Except.ok [] : Except String (List String)) =
          getChainList (fun _ _ => 0) (.ok [⟨".git", true⟩, ⟨"README.md", false⟩]) →
        pageAction [] ⟨7, ⟨11, 20, "Select a chain:"⟩⟩ "0"
          { now := 2000, later := 2001, catalog := .ok [],
            chainInfo := fun _ => "", chainEndpoints := fun _ => "",
            chainPeerNodes := fun _ => "", chainBlockExplorers := fun _ => "",
            editError := none, sent := ⟨12, 20, ""⟩ } =
        ⟨[], [.reply "No chains available." none], none⟩)) :=
  ⟨(getChainList_read_error (fun _ _ => 0) [(7, ⟨some "acme", some 11, some 20, some 1000⟩)]
      ⟨7, ⟨11, 20, "Select a chain:"⟩⟩ "0"
      { now := 2000, later := 2001, catalog := .error "EACCES: permission denied, scandir",
        chainInfo := fun _ => "", chainEndpoints := fun _ => "",
        chainPeerNodes := fun _ => "", chainBlockExplorers := fun _ => "",
        editError := none, sent := ⟨12, 20, ""⟩ }).2.1
    "EACCES: permission denied, scandir" rfl,
   (getChainList_read_error (fun _ _ => 0) [] ⟨7, ⟨11, 20, "Select a chain:"⟩⟩ "0"
      { now := 2000, later := 2001, catalog := .ok [],
        chainInfo := fun _ => "", chainEndpoints := fun _ => "",
        chainPeerNodes := fun _ => "", chainBlockExplorers := fun _ => "",
        editError := none, sent := ⟨12, 20, ""⟩ }).2.2.2
    [⟨".git", true⟩, ⟨"README.md", false⟩] (by decide)⟩

/-! ## Message id and chat id go together -/

theorem targetsPaired_delete (st : Store) (u : UserId) (h : st.targetsPaired) :
    (Store.delete st u).targetsPaired := by
  intro w s hw
  by_cases hwu : w = u
  · subst hwu
    rw [get_delete_self] at hw
    exact absurd hw (by simp)
  · rw [get_delete_ne _ _ _ hwu] at hw
    exact h w s hw

theorem targetsPaired_set (st : Store) (u : UserId) (s : Session) (h : st.targetsPaired)
    (hs : s.targetPaired) : (Store.set st u s).targetsPaired := by
  intro w s2 hw
  by_cases hwu : w = u
  · subst hwu
    rw [get_set_self] at hw
    cases hw
    exact hs
  · rw [get_set_ne _ _ _ _ hwu] at hw
    exact h w s2 hw

theorem targetsPaired_update_ids (st : Store) (u : UserId) (chain : Option String)
    (m c : Int) (now : Int) (h : st.targetsPaired) :
    (updateUserLastAction st u
      (some { chain := chain, messageId := some m, chatId := some c, timestamp := none })
      now).targetsPaired := by
  unfold updateUserLastAction
  exact targetsPaired_set _ _ _ h (Or.inl ⟨m, c, rfl, rfl⟩)

theorem targetsPaired_cleanup (st : Store) (now : Int) (h : st.targetsPaired) :
    (cleanupUserSessions st now).targetsPaired := by
  intro w s hw
  rw [cleanupUserSessions_get] at hw
  split at hw
  · exact absurd hw (by simp)
  · exact h w s hw

theorem targetsPaired_startInteraction (st : Store) (u : UserId) (env : Env)
    (h : st.targetsPaired) : (startInteraction st u env).store.targetsPaired := by
  have hs : (startInteraction st u env).store = Store.delete st u := by
    unfold startInteraction resetUserSession
    have hd : updateUserLastAction st u none env.now = Store.delete st u := rfl
    simp only [hd]
    cases env.catalog <;> rfl
  rw [hs]
  exact targetsPaired_delete st u h

theorem targetsPaired_selectChainAction (st : Store) (ctx : CallbackCtx) (chain : String)
    (env : Env) (h : st.targetsPaired) :
    (selectChainAction st ctx chain env).store.targetsPaired := by
  have h1 := targetsPaired_update_ids st ctx.fromId (some chain) ctx.message.message_id
    ctx.message.chat_id env.now h
  unfold selectChainAction
  simp only []
  split
  · exact h1
  · split
    · exact targetsPaired_update_ids _ ctx.fromId none env.sent.message_id env.sent.chat_id
        env.later h1
    · exact h1

theorem targetsPaired_editOrSend (st : Store) (ctx : CallbackCtx) (userAction : Session)
    (text : String) (env : Env) (h : st.targetsPaired) :
    (editOrSend st ctx userAction text env).store.targetsPaired := by
  unfold editOrSend
  split
  · exact h
  · exact targetsPaired_update_ids st ctx.fromId none env.sent.message_id env.sent.chat_id
      env.now h

theorem chainInfoAction_store (st : Store) (ctx : CallbackCtx) (env : Env) :
    (chainInfoAction st ctx env).store = st := by
  unfold chainInfoAction
  simp only []
  repeat' split
  all_goals rfl

theorem targetsPaired_onCallbackQuery (st : Store) (ctx : CallbackCtx) (data : String)
    (env : Env) (h : st.targetsPaired) :
    (onCallbackQuery st ctx data env).store.targetsPaired := by
  unfold onCallbackQuery
  split
  · exact targetsPaired_selectChainAction st ctx _ env h
  · split
    · unfold ibcIdAction
      split <;> exact h
    · split
      · unfold poolIncentivesAction
        split <;> exact h
      · split
        · rw [pageAction_store]
          exact h
        · split
          · rw [chainInfoAction_store]
            exact h
          · split
            · unfold endpointsAction
              split
              · exact targetsPaired_editOrSend st ctx _ _ env h
              · exact h
            · split
              · unfold peerNodesAction
                split
                · exact targetsPaired_editOrSend st ctx _ _ env h
                · exact h
              · split
                · unfold blockExplorersAction
                  split
                  · exact targetsPaired_editOrSend st ctx _ _ env h
                  · exact h
                · exact h

theorem targetsPaired_textHandler (st : Store) (ctx : TextCtx) (env : Env)
    (h : st.targetsPaired) : (textHandler st ctx env).store.targetsPaired := by
  have hempty : (Store.set st ctx.fromId Session.empty).targetsPaired :=
    targetsPaired_set st ctx.fromId Session.empty h (Or.inr ⟨rfl, rfl⟩)
  unfold textHandler handlePoolIncentives
  simp only []
  split
  · split <;> split <;> first | exact h | exact hempty
  · repeat' split
    all_goals first | exact h | (rw [httpsGet_store]; exact h)

/-- C15: in every store reachable from the empty store by runs of start/reset,
of the callback handlers (select_chain with any edit outcome, page, the
category views), of the text handler and of the sweep, every session has
`messageId` and `chatId` both set or both absent. -/
theorem reachable_targets_paired (st : Store) (hreach : Reachable st) :
    ∀ (u : UserId) (s : Session), Store.get st u = some s →
      (∃ m c : Int, s.messageId = some m ∧ s.chatId = some c) ∨
      (s.messageId = none ∧ s.chatId = none) := by
  have hinv : st.targetsPaired := by
    induction hreach with
    | init =>
      intro u s hs
      simp [Store.get] at hs
    | start st userId env _ ih => exact targetsPaired_startInteraction st userId env ih
    | callback st ctx data env _ ih => exact targetsPaired_onCallbackQuery st ctx data env ih
    | text st ctx env _ ih => exact targetsPaired_textHandler st ctx env ih
    | sweep st now _ ih => exact targetsPaired_cleanup st now ih
  exact hinv

theorem reachable_targets_paired_witness :
    Reachable (onCallbackQuery [] ⟨7, ⟨11, 20, "Select a chain:"⟩⟩ "select_chain:acme"
        { now := 1000, later := 1001, catalog := .ok ["acme"],
          chainInfo := fun _ => "", chainEndpoints := fun _ => "",
          chainPeerNodes := fun _ => "", chainBlockExplorers := fun _ => "",
          editError := none, sent := ⟨12, 20, ""⟩ }).store ∧
    Store.get (onCallbackQuery [] ⟨7, ⟨11, 20, "Select a chain:"⟩⟩ "select_chain:acme"
        { now := 1000, later := 1001, catalog := .ok ["acme"],
          chainInfo := fun _ => "", chainEndpoints := fun _ => "",
          chainPeerNodes := fun _ => "", chainBlockExplorers := fun _ => "",
          editError := none, sent := ⟨12, 20, ""⟩ }).store 7 =
      some ⟨some "acme", some 11, some 20, some 1000⟩ ∧
    ((∃ m c : Int, (⟨some "acme", some 11, some 20, some 1000⟩ : Session).messageId = some m ∧
        (⟨some "acme", some 11, some 20, some 1000⟩ : Session).chatId = some c) ∨
      ((⟨some "acme", some 11, some 20, some 1000⟩ : Session).messageId = none ∧
        (⟨some "acme", some 11, some 20, some 1000⟩ : Session).chatId = none)) :=
  ⟨Reachable.callback [] _ _ _ Reachable.init, by decide,
    reachable_targets_paired _
      (Reachable.callback [] ⟨7, ⟨11, 20, "Select a chain:"⟩⟩ "select_chain:acme"
        { now := 1000, later := 1001, catalog := .ok ["acme"],
          chainInfo := fun _ => "", chainEndpoints := fun _ => "",
          chainPeerNodes := fun _ => "", chainBlockExplorers := fun _ => "",
          editError := none, sent := ⟨12, 20, ""⟩ } Reachable.init)
      7 ⟨some "acme", some 11, some 20, some 1000⟩ (by decide)⟩

end CosmosClerk
